import Mathlib

/-!
# MapboxComponent: a shallow embedding of the navigation state engine

The development follows `src/MapboxComponent.js`.  The React refs of the component
become the fields of one `Session` record, every callback becomes a function
from a session to a session plus the list of effects it emits, and the
asynchronous `fetchAndDrawRoute` is split at its single `await fetch(url)` into a
synchronous part and a resumption that runs when the provider answers.

Numbers: a JavaScript number is modelled as an exact rational or one of the three
special values NaN, +Infinity, -Infinity.  Rounding of doubles and the sign of
zero are not modelled.  The `turf` geometry library and `JSON.stringify` are not
code of the component; they are parameters of the model.
-/

namespace MapboxComponent

/-! ## JavaScript numbers and values -/

/-- A JavaScript number: a finite value (kept exact), NaN, or a signed infinity. -/
inductive JsNum where
  | fin (q : ℚ)
  | nan
  | posInf
  | negInf
  deriving DecidableEq

namespace JsNum

/-- Unary minus. -/
def neg : JsNum → JsNum
  | fin q => fin (-q)
  | nan => nan
  | posInf => negInf
  | negInf => posInf

/-- The `+` operator on numbers. -/
def add : JsNum → JsNum → JsNum
  | fin a, fin b => fin (a + b)
  | fin _, posInf => posInf
  | fin _, negInf => negInf
  | posInf, fin _ => posInf
  | negInf, fin _ => negInf
  | posInf, posInf => posInf
  | negInf, negInf => negInf
  | _, _ => nan

/-- The binary `-` operator on numbers. -/
def sub (a b : JsNum) : JsNum := add a (neg b)

/-- Product of an infinity of the given sign with a finite factor: NaN for the
factor 0, and otherwise the infinity whose sign is the product of the signs. -/
def infTimes (positive : Bool) (q : ℚ) : JsNum :=
  if q = 0 then nan
  else if decide (0 < q) = positive then posInf
  else negInf

/-- The `*` operator on numbers. -/
def mul : JsNum → JsNum → JsNum
  | fin a, fin b => fin (a * b)
  | fin a, posInf => infTimes true a
  | fin a, negInf => infTimes false a
  | posInf, fin b => infTimes true b
  | negInf, fin b => infTimes false b
  | posInf, posInf => posInf
  | negInf, negInf => posInf
  | posInf, negInf => negInf
  | negInf, posInf => negInf
  | _, _ => nan

/-- Truncation of a rational toward zero. -/
def truncQ (q : ℚ) : ℤ := if 0 ≤ q then ⌊q⌋ else ⌈q⌉

/-- The `%` operator on numbers: the remainder has the sign of the dividend. -/
def rem : JsNum → JsNum → JsNum
  | fin a, fin b => if b = 0 then nan else fin (a - b * (truncQ (a / b) : ℚ))
  | fin a, posInf => fin a
  | fin a, negInf => fin a
  | _, _ => nan

/-- The `<` operator on numbers; every comparison with NaN is false. -/
def lt : JsNum → JsNum → Bool
  | fin a, fin b => decide (a < b)
  | fin _, posInf => true
  | negInf, fin _ => true
  | negInf, posInf => true
  | _, _ => false

/-- The `<=` operator on numbers; every comparison with NaN is false. -/
def le : JsNum → JsNum → Bool
  | fin a, fin b => decide (a ≤ b)
  | nan, _ => false
  | _, nan => false
  | negInf, _ => true
  | _, posInf => true
  | _, _ => false

/-- The `>` operator on numbers. -/
def gt (a b : JsNum) : Bool := lt b a

/-- The test `Number.isNaN` on a number. -/
def isNaN : JsNum → Bool
  | nan => true
  | _ => false

instance : OfNat JsNum n := ⟨fin (n : ℚ)⟩
instance : Add JsNum := ⟨add⟩
instance : Sub JsNum := ⟨sub⟩
instance : Mul JsNum := ⟨mul⟩
instance : Mod JsNum := ⟨rem⟩

end JsNum

/-- A JavaScript value as far as the component inspects it: a number, `null`
or `undefined` (the Geolocation API delivers `null` for a missing speed or
heading). -/
inductive JsValue where
  | number (n : JsNum)
  | null
  | undefined
  deriving DecidableEq

namespace JsValue

/-- The test `typeof v === "number"`. -/
def isNumber : JsValue → Bool
  | number _ => true
  | _ => false

/-- The abstract operation ToNumber: `null` becomes 0 and `undefined` becomes NaN. -/
def toNumber : JsValue → JsNum
  | number n => n
  | null => JsNum.fin 0
  | undefined => JsNum.nan

/-- The global `isNaN(v)`: converts to a number first. -/
def globalIsNaN (v : JsValue) : Bool := (toNumber v).isNaN

/-- The method `Number.isNaN(v)`: true only for the number NaN. -/
def numberIsNaN : JsValue → Bool
  | number n => n.isNaN
  | _ => false

end JsValue

/-! ## Data model -/

/-- A coordinate array `[lng, lat]` whose entries are numbers. -/
abbrev Coord := JsNum × JsNum

/-- The object form of a position. -/
structure LngLat where
  lng : JsNum
  lat : JsNum
  deriving DecidableEq

/-- The fields of `pos.coords` read by the position handler. -/
structure Fix where
  longitude : JsValue
  latitude : JsValue
  speed : JsValue
  heading : JsValue
  deriving DecidableEq

/-- The result of `turf.nearestPointOnLine`: the snapped coordinates and
`properties.index`, the index of the matched segment. -/
structure NearestPoint where
  coordinates : Coord
  index : Nat
  deriving DecidableEq

/-- The three `turf` functions the component calls.  They are library code and
enter the model as parameters; the result `none` stands for a thrown exception. -/
structure Turf where
  nearestPointOnLine : List Coord → Coord → Option NearestPoint
  distance : Coord → Coord → Option JsNum
  bearing : Coord → Coord → Option JsNum

/-- The colour property of a drawn line feature. -/
inductive Color where
  | gray
  | blue
  deriving DecidableEq

/-- A line feature of the map source named route. -/
structure Feature where
  color : Color
  coordinates : List Coord
  deriving DecidableEq

/-- A destination of the `destinations` prop: either a bare array or an object
with a `coords` field (absent: `none`) and the address `Endereço`. -/
inductive Destination where
  | array (xs : List JsValue)
  | object (coords : Option (List JsValue)) (endereco : String)
  deriving DecidableEq

/-- What the Directions Provider call can come back with. -/
inductive ProviderResponse where
  | failed
  | notOk
  | noRoutes
  | route (coordinates : List Coord)
  deriving DecidableEq

/-- A provider call that has been issued and not yet answered.  `thenRecalcAt`
is the continuation of the caller after its `await`: the position handler goes
on to store this time in `lastRecalculation`; the other callers do nothing. -/
structure InFlight where
  waypoints : List Coord
  thenRecalcAt : Option Int
  deriving DecidableEq

/-- What a callback does to its collaborators, in the order it happens: camera
moves and redraws on the map, and calls of the provider.  Two entries are
records rather than calls on a collaborator: `fetchAndDrawRouteCalled` marks
that `fetchAndDrawRoute` was entered, and `handlerThrew` that the position
handler ended with an exception nobody caught. -/
inductive Effect where
  | easeTo (center : Coord) (bearing : JsNum) (duration : Nat)
  | fitBounds (points : List Coord)
  | flyTo (center : Coord)
  | setData (features : List Feature)
  | addSource (features : List Feature)
  | fetchAndDrawRouteCalled (newOrigin : List JsValue)
  | fetch (waypoints : List Coord)
  | handlerThrew
  deriving DecidableEq

/-- The refs, the React state and the props of the component, the data of the
map source named route, the timers of the recenter button not yet fired, the
props captured by the handler of the map event load (registered at mount, fired
once), and the provider calls in flight. -/
structure Session where
  origin : Option (List JsValue)
  destinations : List Destination
  mapCurrent : Bool
  shouldFollow : Bool
  markerRef : Option Coord
  alreadyTraveledCoords : List Coord
  routeGeoJSON : Option (List Coord)
  lastRecalculation : Int
  lastKnownStableBearing : JsNum
  recenterClicked : Bool
  lastKnownPosition : Option Coord
  targetPositionRef : Option LngLat
  currentPositionRef : Option LngLat
  routeDrawnForDestinations : Option String
  routeSource : Option (List Feature)
  recenterTimers : Nat
  loadPending : Bool
  mountOrigin : Option (List JsValue)
  mountDestinations : List Destination
  inFlight : List InFlight
  deriving DecidableEq

/-- The session when the component has mounted visible: the map object exists,
every ref has its declared initial value and nothing is in flight. -/
def Session.initial (origin : Option (List JsValue)) (destinations : List Destination) :
    Session where
  origin := origin
  destinations := destinations
  mapCurrent := true
  shouldFollow := true
  markerRef := none
  alreadyTraveledCoords := []
  routeGeoJSON := none
  lastRecalculation := 0
  lastKnownStableBearing := 0
  recenterClicked := false
  lastKnownPosition := none
  targetPositionRef := none
  currentPositionRef := none
  routeDrawnForDestinations := none
  routeSource := none
  recenterTimers := 0
  loadPending := true
  mountOrigin := origin
  mountDestinations := destinations
  inFlight := []

/-- A session together with the effects emitted on the way to it. -/
abbrev Outcome := Session × List Effect

/-! ## The animation loop -/

/-- The constant `interpolationFactor` of `animateMarker`, 0.2. -/
def interpolationFactor : JsNum := JsNum.fin (1 / 5)

/-- One run of `animateMarker`: when both the current and the target position
are set, the current position moves a fifth of the way to the target and the
marker, if it exists, is placed there. -/
def animateMarker (s : Session) : Session :=
  match s.currentPositionRef, s.targetPositionRef with
  | some current, some target =>
    let newLng := current.lng + (target.lng - current.lng) * interpolationFactor
    let newLat := current.lat + (target.lat - current.lat) * interpolationFactor
    { s with
      currentPositionRef := some { lng := newLng, lat := newLat }
      markerRef := s.markerRef.map (fun _ => (newLng, newLat)) }
  | _, _ => s

/-! ## Snap-to-route and the bearing from the route -/

/-- The snap-to-route block of the position handler: the value written to
`targetPositionRef`.  A thrown exception is caught and gives the raw position. -/
def snapTarget (T : Turf) (routeGeoJSON : Option (List Coord)) (newPosition : Coord) : LngLat :=
  let newPositionObject : LngLat := { lng := newPosition.1, lat := newPosition.2 }
  match routeGeoJSON with
  | some coordinates =>
    if coordinates.length > 1 then
      match T.nearestPointOnLine coordinates newPosition with
      | none => newPositionObject
      | some snapped =>
        match T.distance newPosition snapped.coordinates with
        | none => newPositionObject
        | some distance =>
          if distance.lt 30 then
            { lng := snapped.coordinates.1, lat := snapped.coordinates.2 }
          else newPositionObject
    else newPositionObject
  | none => newPositionObject

/-- The function `getBearingFromRoute`; `none` is the result `null`. -/
def getBearingFromRoute (T : Turf) (position : Coord) (routeGeo : Option (List Coord)) :
    Option JsNum :=
  match routeGeo with
  | none => none
  | some coords =>
    if coords.length < 2 then none
    else
      match T.nearestPointOnLine coords position with
      | none => none
      | some snapped =>
        let idx := snapped.index
        let nextCoord :=
          match coords.get? (idx + 1) with
          | some c => some c
          | none => if idx > 0 then coords.get? (idx - 1) else none
        match nextCoord with
        | none => none
        | some next =>
          match T.bearing snapped.coordinates next with
          | none => none
          | some bearingRaw => some ((bearingRaw + 360) % 360)

/-! ## Fetching and drawing a route -/

/-- The check `Array.isArray(c) && c.length === 2 && c.every(x => typeof x === "number")`,
returning the pair when it passes. -/
def validPair : List JsValue → Option Coord
  | [JsValue.number a, JsValue.number b] => some (a, b)
  | _ => none

/-- The coordinates of a destination, `Array.isArray(d) ? d : d.coords`, when valid. -/
def Destination.validCoords : Destination → Option Coord
  | Destination.array xs => validPair xs
  | Destination.object (some xs) _ => validPair xs
  | Destination.object none _ => none

/-- The part of `fetchAndDrawRoute` that runs before `await fetch(url)`.  The second
component is the list of waypoints of the request when one is issued, and `none`
when the function returned without calling the provider. -/
def fetchAndDrawRoute (destinations : List Destination) (s : Session)
    (newOrigin : List JsValue) : Outcome × Option (List Coord) :=
  match validPair newOrigin with
  | none => ((s, [Effect.fetchAndDrawRouteCalled newOrigin]), none)
  | some o =>
    let allCoords := o :: destinations.filterMap Destination.validCoords
    if allCoords.length < 2 then
      if s.mapCurrent && s.routeSource.isSome then
        (({ s with routeSource := some [] },
          [Effect.fetchAndDrawRouteCalled newOrigin, Effect.setData []]), none)
      else ((s, [Effect.fetchAndDrawRouteCalled newOrigin]), none)
    else
      ((s, [Effect.fetchAndDrawRouteCalled newOrigin, Effect.fetch allCoords]), some allCoords)

/-- The features drawn once a route has arrived: the traveled part in gray when it
has more than one point, and the new route in blue. -/
def routeFeatures (gray route : List Coord) : List Feature :=
  if gray.length > 1 then
    [{ color := Color.gray, coordinates := gray }, { color := Color.blue, coordinates := route }]
  else [{ color := Color.blue, coordinates := route }]

/-- The part of `fetchAndDrawRoute` that runs once the provider has answered.  An
exception (a failed call, or a missing map object) is caught and logged.  The
three line layers added over the source are styling and are not modelled. -/
def fetchAndDrawRouteResume (s : Session) : ProviderResponse → Outcome
  | ProviderResponse.failed => (s, [])
  | ProviderResponse.notOk => (s, [])
  | ProviderResponse.noRoutes =>
    if s.mapCurrent && s.routeSource.isSome then
      ({ s with routeSource := some [] }, [Effect.setData []])
    else (s, [])
  | ProviderResponse.route coordinates =>
    let s1 := { s with routeGeoJSON := some coordinates }
    if !s1.mapCurrent then (s1, [])
    else if s1.routeSource.isSome then
      let features := routeFeatures s1.alreadyTraveledCoords coordinates
      ({ s1 with routeSource := some features }, [Effect.setData features])
    else
      let features : List Feature := [{ color := Color.blue, coordinates := coordinates }]
      ({ s1 with routeSource := some features }, [Effect.addSource features])

/-- A call of `fetchAndDrawRoute` by a caller whose code after the call is
`thenRecalcAt`: when the provider is called the request goes in flight together
with that continuation, and otherwise the continuation runs at once. -/
def callFetchAndDrawRoute (destinations : List Destination) (s : Session)
    (newOrigin : List JsValue) (thenRecalcAt : Option Int) : Outcome :=
  let started := fetchAndDrawRoute destinations s newOrigin
  match started.2 with
  | some waypoints =>
    ({ started.1.1 with
        inFlight := started.1.1.inFlight ++ [{ waypoints := waypoints, thenRecalcAt := thenRecalcAt }] },
      started.1.2)
  | none =>
    match thenRecalcAt with
    | some now => ({ started.1.1 with lastRecalculation := now }, started.1.2)
    | none => started.1

/-- The provider answers the request at position `i` of the requests in flight:
`fetchAndDrawRoute` resumes, then the caller continues after its `await`. -/
def onResolve (s : Session) (i : Nat) (response : ProviderResponse) : Outcome :=
  match s.inFlight.get? i with
  | none => (s, [])
  | some request =>
    let resumed := fetchAndDrawRouteResume { s with inFlight := s.inFlight.eraseIdx i } response
    match request.thenRecalcAt with
    | some now => ({ resumed.1 with lastRecalculation := now }, resumed.2)
    | none => resumed

/-! ## The position handler -/

/-- The constant `speedThreshold` of the position handler, 0.5. -/
def speedThreshold : JsNum := JsNum.fin (1 / 2)

/-- The bearing block of the position handler: the session after it and the
value of `finalMapBearing`.  Comparing `speed` converts it to a number first. -/
def estimateBearing (T : Turf) (s : Session) (newPosition : Coord) (speed gpsRawHeading : JsValue) :
    Session × JsNum :=
  if s.recenterClicked && speed.toNumber.le speedThreshold then (s, 0)
  else if speed.toNumber.gt speedThreshold then
    let s1 := { s with recenterClicked := false }
    let finalMapBearing : JsNum :=
      match getBearingFromRoute T newPosition s1.routeGeoJSON with
      | some bearingFromRoute => bearingFromRoute
      | none =>
        if gpsRawHeading.isNumber && !gpsRawHeading.numberIsNaN then gpsRawHeading.toNumber
        else s1.lastKnownStableBearing
    if !finalMapBearing.isNaN then
      ({ s1 with lastKnownStableBearing := finalMapBearing }, finalMapBearing)
    else (s1, finalMapBearing)
  else (s, s.lastKnownStableBearing)

/-- The traveled part of the route: `coords.slice(0, index + 1)` with the snapped
point pushed at the end. -/
def coordsBefore (coords : List Coord) (index : Nat) (snapped : Coord) : List Coord :=
  coords.take (index + 1) ++ [snapped]

/-- The remaining part of the route: the snapped point, then `coords.slice(index + 1)`. -/
def coordsAfter (coords : List Coord) (index : Nat) (snapped : Coord) : List Coord :=
  snapped :: coords.drop (index + 1)

/-- The last block of the position handler: behind the gate on
`lastRecalculation`, the route is split at the snapped point and redrawn, and
more than 50 m from the route `fetchAndDrawRoute` is called, after which
`lastRecalculation` is set.  An exception of `turf` or of the map is not caught
here and ends the handler. -/
def updateProgress (T : Turf) (s : Session) (newPosition : Coord) (now : Int) : Outcome :=
  match s.routeGeoJSON with
  | none => (s, [])
  | some coords =>
    if now - s.lastRecalculation > 5000 then
      match T.nearestPointOnLine coords newPosition with
      | none => (s, [Effect.handlerThrew])
      | some snapped =>
        match T.distance newPosition snapped.coordinates with
        | none => (s, [Effect.handlerThrew])
        | some distance =>
          let before := coordsBefore coords snapped.index snapped.coordinates
          let s1 := { s with alreadyTraveledCoords := before }
          let after := coordsAfter coords snapped.index snapped.coordinates
          if s1.mapCurrent && s1.routeSource.isSome then
            let features : List Feature :=
              [{ color := Color.gray, coordinates := before },
               { color := Color.blue, coordinates := after }]
            let s2 := { s1 with routeSource := some features }
            if distance.gt 50 then
              let called :=
                callFetchAndDrawRoute s2.destinations s2
                  [JsValue.number newPosition.1, JsValue.number newPosition.2] (some now)
              (called.1, Effect.setData features :: called.2)
            else (s2, [Effect.setData features])
          else (s1, [Effect.handlerThrew])
    else (s, [])

/-- The callback of `watchPosition` for a position `pos` when `Date.now()` is `now`. -/
def onPosition (T : Turf) (s : Session) (pos : Fix) (now : Int) : Outcome :=
  match pos.longitude, pos.latitude with
  | JsValue.number longitude, JsValue.number latitude =>
    if longitude.isNaN || latitude.isNaN then (s, [])
    else
      let newPositionArray : Coord := (longitude, latitude)
      let newPositionObject : LngLat := { lng := longitude, lat := latitude }
      let s1 := { s with
        currentPositionRef :=
          match s.currentPositionRef with
          | some current => some current
          | none => some newPositionObject
        lastKnownPosition := some newPositionArray
        targetPositionRef := some (snapTarget T s.routeGeoJSON newPositionArray) }
      if s1.markerRef.isNone && !s1.mapCurrent then (s1, [Effect.handlerThrew])
      else
        let s2 := { s1 with
          markerRef :=
            match s1.markerRef with
            | some marker => some marker
            | none => some newPositionArray }
        let estimated := estimateBearing T s2 newPositionArray pos.speed pos.heading
        let s3 := estimated.1
        let finalMapBearing := estimated.2
        let camera :=
          if s3.shouldFollow && s3.mapCurrent then [Effect.easeTo newPositionArray finalMapBearing 1000]
          else []
        let progressed := updateProgress T s3 newPositionArray now
        (progressed.1, camera ++ progressed.2)
  | _, _ => (s, [])

/-! ## The route effect and the buttons -/

/-- The effect that draws the main route, run after a render.  `stringify` stands
for `JSON.stringify` on the destinations. -/
def routeEffect (stringify : List Destination → String) (s : Session) : Outcome :=
  let destinationsKey := stringify s.destinations
  match s.origin with
  | none => (s, [])
  | some origin =>
    if !s.mapCurrent || s.destinations.length == 0 then (s, [])
    else if s.routeDrawnForDestinations = some destinationsKey then (s, [])
    else
      let called := callFetchAndDrawRoute s.destinations s origin none
      ({ called.1 with routeDrawnForDestinations := some destinationsKey }, called.2)

/-- The function `fitMapToBounds` for the given props: the bounds of the valid
points are framed, and without a valid point the view flies to the default centre. -/
def fitMapToBounds (origin : Option (List JsValue)) (destinations : List Destination)
    (s : Session) : List Effect :=
  if !s.mapCurrent then []
  else
    let points := (origin.bind validPair).toList ++ destinations.filterMap Destination.validCoords
    if points.isEmpty then [Effect.flyTo (0, 0)] else [Effect.fitBounds points]

/-- The value `x || 0` for a number `x`. -/
def orZero (x : JsNum) : JsNum :=
  if x = JsNum.fin 0 ∨ x = JsNum.nan then 0 else x

/-- The click handler of the recenter button: the camera moves to the last known
position and a timer of 550 ms is started. -/
def handleRecenterClick (s : Session) : Outcome :=
  match s.lastKnownPosition with
  | none => (s, [])
  | some position =>
    if !s.mapCurrent then (s, [])
    else
      ({ s with recenterTimers := s.recenterTimers + 1 },
        [Effect.easeTo position (orZero s.lastKnownStableBearing) 500])

/-- The timer of the recenter button fires: following is switched on and the
recenter flag is set. -/
def recenterTimeout (s : Session) : Session :=
  if s.recenterTimers = 0 then s
  else { s with recenterTimers := s.recenterTimers - 1, shouldFollow := true, recenterClicked := true }

/-- The click handler of the overview button. -/
def handleGeralClick (s : Session) : Outcome :=
  ({ s with shouldFollow := false }, fitMapToBounds s.origin s.destinations s)

/-- The handler of the map event load, with the props captured at mount. -/
def onLoad (s : Session) : Outcome :=
  if !s.loadPending then (s, [])
  else
    let s1 := { s with loadPending := false }
    let bounds := fitMapToBounds s1.mountOrigin s1.mountDestinations s1
    let notNaN (c : Coord) : Bool := !c.1.isNaN && !c.2.isNaN
    let destinosValidos :=
      (s1.mountDestinations.filterMap Destination.validCoords).filter notNaN
    match s1.mountOrigin with
    | none => (s1, bounds)
    | some origin =>
      if ((validPair origin).map notNaN).getD false && destinosValidos.length > 0 then
        let called := callFetchAndDrawRoute s1.mountDestinations s1 origin none
        (called.1, bounds ++ called.2)
      else (s1, bounds)

/-! ## Events -/

/-- What can happen to a mounted, visible component. -/
inductive Event where
  | render (origin : Option (List JsValue)) (destinations : List Destination)
  | load
  | position (pos : Fix) (now : Int)
  | resolve (i : Nat) (response : ProviderResponse)
  | frame
  | dragstart
  | zoomstart
  | recenterClick
  | recenterTimer
  | geralClick

/-- One event handled to completion. -/
def step (T : Turf) (stringify : List Destination → String) (s : Session) : Event → Outcome
  | Event.render origin destinations =>
    routeEffect stringify { s with origin := origin, destinations := destinations }
  | Event.load => onLoad s
  | Event.position pos now => onPosition T s pos now
  | Event.resolve i response => onResolve s i response
  | Event.frame => (animateMarker s, [])
  | Event.dragstart => ({ s with shouldFollow := false }, [])
  | Event.zoomstart => ({ s with shouldFollow := false }, [])
  | Event.recenterClick => handleRecenterClick s
  | Event.recenterTimer => (recenterTimeout s, [])
  | Event.geralClick => handleGeralClick s

/-- A sequence of events handled one after the other, with all effects in order. -/
def run (T : Turf) (stringify : List Destination → String) (s : Session) : List Event → Outcome
  | [] => (s, [])
  | e :: es =>
    let first := step T stringify s e
    let rest := run T stringify first.1 es
    (rest.1, first.2 ++ rest.2)

/-- The position handler when the provider answers before anything else happens:
a request issued by the handler is resolved at once with `response`. -/
def onPositionResolved (T : Turf) (s : Session) (pos : Fix) (now : Int)
    (response : ProviderResponse) : Outcome :=
  let handled := onPosition T s pos now
  if handled.1.inFlight.length > s.inFlight.length then
    let resolved := onResolve handled.1 (handled.1.inFlight.length - 1) response
    (resolved.1, handled.2 ++ resolved.2)
  else handled

/-! ## Observations on the emitted effects -/

/-- Whether an effect is a call of `fetchAndDrawRoute`. -/
def Effect.isRouteCall : Effect → Bool
  | Effect.fetchAndDrawRouteCalled _ => true
  | _ => false

/-- Whether an effect is a call of the Directions Provider. -/
def Effect.isFetch : Effect → Bool
  | Effect.fetch _ => true
  | _ => false

/-- Whether an effect redraws the route source. -/
def Effect.isSetData : Effect → Bool
  | Effect.setData _ => true
  | _ => false

/-- Whether an effect is a camera move. -/
def Effect.isEaseTo : Effect → Bool
  | Effect.easeTo _ _ _ => true
  | _ => false

/-- A route request was dispatched: `fetchAndDrawRoute` was called. -/
def dispatched (effects : List Effect) : Bool := effects.any Effect.isRouteCall

/-- The route split was recomputed and redrawn by the progress block: it emits
the gray traveled part together with the blue remaining part. -/
def progressRecomputed (effects : List Effect) : Bool :=
  effects.any fun e =>
    match e with
    | Effect.setData [f, g] => f.color == Color.gray && g.color == Color.blue
    | _ => false

/-- The number of deviation recalculations in flight: the requests issued by the
position handler and not yet answered. -/
def recalculationsInFlight (s : Session) : Nat :=
  (s.inFlight.filter fun request => request.thenRecalcAt.isSome).length

/-- The provider is prompt along a sequence of events from a session: whenever a
fix arrives, every earlier deviation recalculation has been answered. -/
def promptProvider (T : Turf) (stringify : List Destination → String) :
    Session → List Event → Prop
  | _, [] => True
  | s, e :: es =>
    (∀ pos now, e = Event.position pos now → recalculationsInFlight s = 0) ∧
    promptProvider T stringify (step T stringify s e).1 es

/-- The drawn route matches the stored one: the map object exists, and the source
named route exists exactly when a route geometry is stored. -/
def Session.drawnConsistent (s : Session) : Prop :=
  s.mapCurrent = true ∧ s.routeSource.isSome = s.routeGeoJSON.isSome

/-- A number is a compass bearing: finite, at least 0 and less than 360. -/
def JsNum.isCompass : JsNum → Bool
  | JsNum.fin q => decide (0 ≤ q ∧ q < 360)
  | _ => false

/-- A device heading as the Geolocation API defines it: `null`, NaN, or a number
of degrees at least 0 and less than 360. -/
def headingInRange : JsValue → Bool
  | JsValue.number n => n.isNaN || n.isCompass
  | _ => true

/-- The bearings returned by `turf.bearing` lie between -180 and 180 degrees. -/
def Turf.bearingInRange (T : Turf) : Prop :=
  ∀ a b r, T.bearing a b = some r → ∃ q : ℚ, r = JsNum.fin q ∧ -180 ≤ q ∧ q ≤ 180

/-! ## A sample geometry for concrete instances -/

/-- The distance used by `sampleTurf`: the sum of the coordinate differences. -/
def sampleDistance : Coord → Coord → Option JsNum
  | (JsNum.fin a, JsNum.fin b), (JsNum.fin c, JsNum.fin d) => some (JsNum.fin (|a - c| + |b - d|))
  | _, _ => some JsNum.nan

/-- A small stand-in for `turf`, used to instantiate the parameter at concrete
inputs: the nearest point of a line is its first vertex, the distance is the sum
of the coordinate differences, and the bearing is due east. -/
def sampleTurf : Turf where
  nearestPointOnLine := fun line _ =>
    match line with
    | [] => none
    | c :: _ => some { coordinates := c, index := 0 }
  distance := sampleDistance
  bearing := fun _ _ => some (JsNum.fin 90)

/-- The sample geometry with every bearing due west, -90 degrees. -/
def sampleTurfWest : Turf :=
  { sampleTurf with bearing := fun _ _ => some (JsNum.fin (-90)) }

/-- A stand-in for `JSON.stringify` on destinations, used at concrete inputs: the
addresses of the object destinations, each followed by a semicolon. -/
def sampleStringify : List Destination → String
  | [] => ""
  | Destination.array _ :: ds => "[];" ++ sampleStringify ds
  | Destination.object _ endereco :: ds => endereco ++ ";" ++ sampleStringify ds

/-- The point with the given finite coordinates, as an array of numbers. -/
def pt (lng lat : ℚ) : Coord := (JsNum.fin lng, JsNum.fin lat)

/-- A fix at the given finite coordinates with the given speed and heading. -/
def fixAt (lng lat : ℚ) (speed heading : JsValue) : Fix :=
  { longitude := JsValue.number (JsNum.fin lng), latitude := JsValue.number (JsNum.fin lat),
    speed := speed, heading := heading }

/-- A session with a drawn two-point route from (0, 0) to (100, 0) and one destination. -/
def sampleSession : Session :=
  { Session.initial (some [JsValue.number 0, JsValue.number 0])
      [Destination.array [JsValue.number 100, JsValue.number 0]] with
    routeGeoJSON := some [pt 0 0, pt 100 0]
    routeSource := some [{ color := Color.blue, coordinates := [pt 0 0, pt 100 0] }]
    routeDrawnForDestinations := some "[];"
    loadPending := false }

/-- A sample origin prop, the point (0, 0). -/
def sampleOrigin : List JsValue := [JsValue.number 0, JsValue.number 0]

/-- A sample destinations prop: one destination at (100, 0) with the given address. -/
def sampleDestinations (endereco : String) : List Destination :=
  [Destination.object (some [JsValue.number 100, JsValue.number 0]) endereco]

/-- Events after which a route is stored and drawn: the first render requests a
route and the provider answers with the two-point route from (0, 0) to (100, 0). -/
def sampleRouteDrawn : List Event :=
  [Event.render (some sampleOrigin) (sampleDestinations "A"),
   Event.resolve 0 (ProviderResponse.route [pt 0 0, pt 100 0])]

/-- The sample session when `lastRecalculation` holds the given time. -/
def sampleSessionAt (lastRecalculation : Int) : Session :=
  { sampleSession with lastRecalculation := lastRecalculation }

/-! ## Theorems -/

/-! ### Arithmetic on finite numbers -/

@[simp] theorem JsNum.fin_add_fin (a b : ℚ) : JsNum.fin a + JsNum.fin b = JsNum.fin (a + b) := rfl

@[simp] theorem JsNum.fin_sub_fin (a b : ℚ) : JsNum.fin a - JsNum.fin b = JsNum.fin (a - b) := by
  show JsNum.fin (a + -b) = JsNum.fin (a - b)
  rw [sub_eq_add_neg]

@[simp] theorem JsNum.fin_mul_fin (a b : ℚ) : JsNum.fin a * JsNum.fin b = JsNum.fin (a * b) := rfl

theorem JsNum.ofNat_eq_fin (n : ℕ) : (OfNat.ofNat n : JsNum) = JsNum.fin (n : ℚ) := rfl

/-! ### Frame lemmas -/

theorem fetchAndDrawRoute_frame (ds : List Destination) (s : Session) (o : List JsValue) :
    ∃ rs, (fetchAndDrawRoute ds s o).1.1 = { s with routeSource := rs } := by
  unfold fetchAndDrawRoute
  cases validPair o with
  | none => exact ⟨_, rfl⟩
  | some c =>
    by_cases h1 : (c :: ds.filterMap Destination.validCoords).length < 2
    · by_cases h2 : (s.mapCurrent && s.routeSource.isSome) = true
      · simp only [h1, h2, if_true]; exact ⟨_, rfl⟩
      · simp only [h1, h2, if_true]; exact ⟨_, rfl⟩
    · simp only [h1, if_false]; exact ⟨_, rfl⟩

theorem callFetchAndDrawRoute_frame (ds : List Destination) (s : Session) (o : List JsValue)
    (k : Option Int) :
    ∃ rs fl lr, (callFetchAndDrawRoute ds s o k).1 =
      { s with routeSource := rs, inFlight := fl, lastRecalculation := lr } := by
  obtain ⟨rs, h⟩ := fetchAndDrawRoute_frame ds s o
  unfold callFetchAndDrawRoute
  rcases hf : fetchAndDrawRoute ds s o with ⟨⟨s1, es⟩, w⟩
  rw [hf] at h
  simp only at h
  subst h
  cases w <;> cases k <;> exact ⟨_, _, _, rfl⟩

/-- The shape of a call of `fetchAndDrawRoute` with a valid origin: either the
provider is called and the request goes in flight, or there is no valid
destination, the drawn route is cleared if there is one, and the continuation
runs at once. -/
theorem callFetchAndDrawRoute_valid (ds : List Destination) (s : Session) (a b : JsNum)
    (k : Option Int) :
    (callFetchAndDrawRoute ds s [JsValue.number a, JsValue.number b] k
      = ({ s with inFlight := s.inFlight ++
            [{ waypoints := (a, b) :: ds.filterMap Destination.validCoords, thenRecalcAt := k }] },
         [Effect.fetchAndDrawRouteCalled [JsValue.number a, JsValue.number b],
          Effect.fetch ((a, b) :: ds.filterMap Destination.validCoords)])) ∨
    (∃ rs effects, callFetchAndDrawRoute ds s [JsValue.number a, JsValue.number b] k
      = ({ s with routeSource := rs, lastRecalculation := k.getD s.lastRecalculation },
         Effect.fetchAndDrawRouteCalled [JsValue.number a, JsValue.number b] :: effects) ∧
      (∀ e ∈ effects, e = Effect.setData []) ∧
      (s.routeSource.isSome = true → rs.isSome = true)) := by
  unfold callFetchAndDrawRoute fetchAndDrawRoute
  simp only [validPair]
  by_cases h1 : ((a, b) :: ds.filterMap Destination.validCoords).length < 2
  · right
    by_cases h2 : (s.mapCurrent && s.routeSource.isSome) = true
    · simp only [h1, h2, if_true]
      cases k <;> exact ⟨_, _, rfl, by simp, by simp⟩
    · simp only [h1, h2, if_true]
      cases k <;> exact ⟨_, _, rfl, by simp, by simp⟩
  · left
    simp only [h1, if_false]

theorem progress_frame_comp (r s2 s : Session)
    (h1 : ∃ rs fl lr, r = { s2 with routeSource := rs, inFlight := fl, lastRecalculation := lr })
    (h2 : ∃ tr rs, s2 = { s with alreadyTraveledCoords := tr, routeSource := rs }) :
    ∃ tr rs fl lr, r =
      { s with alreadyTraveledCoords := tr, routeSource := rs, inFlight := fl,
               lastRecalculation := lr } := by
  obtain ⟨rs, fl, lr, h1⟩ := h1
  obtain ⟨tr, rs2, h2⟩ := h2
  subst h2
  subst h1
  exact ⟨_, _, _, _, rfl⟩

theorem updateProgress_frame (T : Turf) (s : Session) (p : Coord) (now : Int) :
    ∃ tr rs fl lr, (updateProgress T s p now).1 =
      { s with alreadyTraveledCoords := tr, routeSource := rs, inFlight := fl,
               lastRecalculation := lr } := by
  unfold updateProgress
  repeat' first | split | (dsimp only; split)
  all_goals first
    | exact ⟨_, _, _, _, rfl⟩
    | exact progress_frame_comp _ _ _ (callFetchAndDrawRoute_frame _ _ _ _) ⟨_, _, rfl⟩

theorem estimateBearing_frame (T : Turf) (s : Session) (p : Coord) (speed heading : JsValue) :
    ∃ rc sb, (estimateBearing T s p speed heading).1 =
      { s with recenterClicked := rc, lastKnownStableBearing := sb } := by
  unfold estimateBearing
  repeat' first | split | (dsimp only; split)
  all_goals exact ⟨_, _, rfl⟩

/-! ### Fields left unchanged -/

@[simp] theorem callFetchAndDrawRoute_origin (ds : List Destination) (s : Session) (o : List JsValue) (k : Option Int) :
    (callFetchAndDrawRoute ds s o k).1.origin = s.origin := by
  obtain ⟨_, _, _, h⟩ := callFetchAndDrawRoute_frame ds s o k
  rw [h]

@[simp] theorem callFetchAndDrawRoute_destinations (ds : List Destination) (s : Session) (o : List JsValue) (k : Option Int) :
    (callFetchAndDrawRoute ds s o k).1.destinations = s.destinations := by
  obtain ⟨_, _, _, h⟩ := callFetchAndDrawRoute_frame ds s o k
  rw [h]

@[simp] theorem callFetchAndDrawRoute_mapCurrent (ds : List Destination) (s : Session) (o : List JsValue) (k : Option Int) :
    (callFetchAndDrawRoute ds s o k).1.mapCurrent = s.mapCurrent := by
  obtain ⟨_, _, _, h⟩ := callFetchAndDrawRoute_frame ds s o k
  rw [h]

@[simp] theorem callFetchAndDrawRoute_shouldFollow (ds : List Destination) (s : Session) (o : List JsValue) (k : Option Int) :
    (callFetchAndDrawRoute ds s o k).1.shouldFollow = s.shouldFollow := by
  obtain ⟨_, _, _, h⟩ := callFetchAndDrawRoute_frame ds s o k
  rw [h]

@[simp] theorem callFetchAndDrawRoute_markerRef (ds : List Destination) (s : Session) (o : List JsValue) (k : Option Int) :
    (callFetchAndDrawRoute ds s o k).1.markerRef = s.markerRef := by
  obtain ⟨_, _, _, h⟩ := callFetchAndDrawRoute_frame ds s o k
  rw [h]

@[simp] theorem callFetchAndDrawRoute_alreadyTraveledCoords (ds : List Destination) (s : Session) (o : List JsValue) (k : Option Int) :
    (callFetchAndDrawRoute ds s o k).1.alreadyTraveledCoords = s.alreadyTraveledCoords := by
  obtain ⟨_, _, _, h⟩ := callFetchAndDrawRoute_frame ds s o k
  rw [h]

@[simp] theorem callFetchAndDrawRoute_routeGeoJSON (ds : List Destination) (s : Session) (o : List JsValue) (k : Option Int) :
    (callFetchAndDrawRoute ds s o k).1.routeGeoJSON = s.routeGeoJSON := by
  obtain ⟨_, _, _, h⟩ := callFetchAndDrawRoute_frame ds s o k
  rw [h]

@[simp] theorem callFetchAndDrawRoute_lastKnownStableBearing (ds : List Destination) (s : Session) (o : List JsValue) (k : Option Int) :
    (callFetchAndDrawRoute ds s o k).1.lastKnownStableBearing = s.lastKnownStableBearing := by
  obtain ⟨_, _, _, h⟩ := callFetchAndDrawRoute_frame ds s o k
  rw [h]

@[simp] theorem callFetchAndDrawRoute_recenterClicked (ds : List Destination) (s : Session) (o : List JsValue) (k : Option Int) :
    (callFetchAndDrawRoute ds s o k).1.recenterClicked = s.recenterClicked := by
  obtain ⟨_, _, _, h⟩ := callFetchAndDrawRoute_frame ds s o k
  rw [h]

@[simp] theorem callFetchAndDrawRoute_lastKnownPosition (ds : List Destination) (s : Session) (o : List JsValue) (k : Option Int) :
    (callFetchAndDrawRoute ds s o k).1.lastKnownPosition = s.lastKnownPosition := by
  obtain ⟨_, _, _, h⟩ := callFetchAndDrawRoute_frame ds s o k
  rw [h]

@[simp] theorem callFetchAndDrawRoute_targetPositionRef (ds : List Destination) (s : Session) (o : List JsValue) (k : Option Int) :
    (callFetchAndDrawRoute ds s o k).1.targetPositionRef = s.targetPositionRef := by
  obtain ⟨_, _, _, h⟩ := callFetchAndDrawRoute_frame ds s o k
  rw [h]

@[simp] theorem callFetchAndDrawRoute_currentPositionRef (ds : List Destination) (s : Session) (o : List JsValue) (k : Option Int) :
    (callFetchAndDrawRoute ds s o k).1.currentPositionRef = s.currentPositionRef := by
  obtain ⟨_, _, _, h⟩ := callFetchAndDrawRoute_frame ds s o k
  rw [h]

@[simp] theorem callFetchAndDrawRoute_routeDrawnForDestinations (ds : List Destination) (s : Session) (o : List JsValue) (k : Option Int) :
    (callFetchAndDrawRoute ds s o k).1.routeDrawnForDestinations = s.routeDrawnForDestinations := by
  obtain ⟨_, _, _, h⟩ := callFetchAndDrawRoute_frame ds s o k
  rw [h]

@[simp] theorem callFetchAndDrawRoute_recenterTimers (ds : List Destination) (s : Session) (o : List JsValue) (k : Option Int) :
    (callFetchAndDrawRoute ds s o k).1.recenterTimers = s.recenterTimers := by
  obtain ⟨_, _, _, h⟩ := callFetchAndDrawRoute_frame ds s o k
  rw [h]

@[simp] theorem updateProgress_origin (T : Turf) (s : Session) (p : Coord) (now : Int) :
    (updateProgress T s p now).1.origin = s.origin := by
  obtain ⟨_, _, _, _, h⟩ := updateProgress_frame T s p now
  rw [h]

@[simp] theorem updateProgress_destinations (T : Turf) (s : Session) (p : Coord) (now : Int) :
    (updateProgress T s p now).1.destinations = s.destinations := by
  obtain ⟨_, _, _, _, h⟩ := updateProgress_frame T s p now
  rw [h]

@[simp] theorem updateProgress_mapCurrent (T : Turf) (s : Session) (p : Coord) (now : Int) :
    (updateProgress T s p now).1.mapCurrent = s.mapCurrent := by
  obtain ⟨_, _, _, _, h⟩ := updateProgress_frame T s p now
  rw [h]

@[simp] theorem updateProgress_shouldFollow (T : Turf) (s : Session) (p : Coord) (now : Int) :
    (updateProgress T s p now).1.shouldFollow = s.shouldFollow := by
  obtain ⟨_, _, _, _, h⟩ := updateProgress_frame T s p now
  rw [h]

@[simp] theorem updateProgress_markerRef (T : Turf) (s : Session) (p : Coord) (now : Int) :
    (updateProgress T s p now).1.markerRef = s.markerRef := by
  obtain ⟨_, _, _, _, h⟩ := updateProgress_frame T s p now
  rw [h]

@[simp] theorem updateProgress_routeGeoJSON (T : Turf) (s : Session) (p : Coord) (now : Int) :
    (updateProgress T s p now).1.routeGeoJSON = s.routeGeoJSON := by
  obtain ⟨_, _, _, _, h⟩ := updateProgress_frame T s p now
  rw [h]

@[simp] theorem updateProgress_lastKnownStableBearing (T : Turf) (s : Session) (p : Coord) (now : Int) :
    (updateProgress T s p now).1.lastKnownStableBearing = s.lastKnownStableBearing := by
  obtain ⟨_, _, _, _, h⟩ := updateProgress_frame T s p now
  rw [h]

@[simp] theorem updateProgress_recenterClicked (T : Turf) (s : Session) (p : Coord) (now : Int) :
    (updateProgress T s p now).1.recenterClicked = s.recenterClicked := by
  obtain ⟨_, _, _, _, h⟩ := updateProgress_frame T s p now
  rw [h]

@[simp] theorem updateProgress_lastKnownPosition (T : Turf) (s : Session) (p : Coord) (now : Int) :
    (updateProgress T s p now).1.lastKnownPosition = s.lastKnownPosition := by
  obtain ⟨_, _, _, _, h⟩ := updateProgress_frame T s p now
  rw [h]

@[simp] theorem updateProgress_targetPositionRef (T : Turf) (s : Session) (p : Coord) (now : Int) :
    (updateProgress T s p now).1.targetPositionRef = s.targetPositionRef := by
  obtain ⟨_, _, _, _, h⟩ := updateProgress_frame T s p now
  rw [h]

@[simp] theorem updateProgress_currentPositionRef (T : Turf) (s : Session) (p : Coord) (now : Int) :
    (updateProgress T s p now).1.currentPositionRef = s.currentPositionRef := by
  obtain ⟨_, _, _, _, h⟩ := updateProgress_frame T s p now
  rw [h]

@[simp] theorem updateProgress_routeDrawnForDestinations (T : Turf) (s : Session) (p : Coord) (now : Int) :
    (updateProgress T s p now).1.routeDrawnForDestinations = s.routeDrawnForDestinations := by
  obtain ⟨_, _, _, _, h⟩ := updateProgress_frame T s p now
  rw [h]

@[simp] theorem updateProgress_recenterTimers (T : Turf) (s : Session) (p : Coord) (now : Int) :
    (updateProgress T s p now).1.recenterTimers = s.recenterTimers := by
  obtain ⟨_, _, _, _, h⟩ := updateProgress_frame T s p now
  rw [h]

@[simp] theorem estimateBearing_origin (T : Turf) (s : Session) (p : Coord) (speed heading : JsValue) :
    (estimateBearing T s p speed heading).1.origin = s.origin := by
  obtain ⟨_, _, h⟩ := estimateBearing_frame T s p speed heading
  rw [h]

@[simp] theorem estimateBearing_destinations (T : Turf) (s : Session) (p : Coord) (speed heading : JsValue) :
    (estimateBearing T s p speed heading).1.destinations = s.destinations := by
  obtain ⟨_, _, h⟩ := estimateBearing_frame T s p speed heading
  rw [h]

@[simp] theorem estimateBearing_mapCurrent (T : Turf) (s : Session) (p : Coord) (speed heading : JsValue) :
    (estimateBearing T s p speed heading).1.mapCurrent = s.mapCurrent := by
  obtain ⟨_, _, h⟩ := estimateBearing_frame T s p speed heading
  rw [h]

@[simp] theorem estimateBearing_shouldFollow (T : Turf) (s : Session) (p : Coord) (speed heading : JsValue) :
    (estimateBearing T s p speed heading).1.shouldFollow = s.shouldFollow := by
  obtain ⟨_, _, h⟩ := estimateBearing_frame T s p speed heading
  rw [h]

@[simp] theorem estimateBearing_markerRef (T : Turf) (s : Session) (p : Coord) (speed heading : JsValue) :
    (estimateBearing T s p speed heading).1.markerRef = s.markerRef := by
  obtain ⟨_, _, h⟩ := estimateBearing_frame T s p speed heading
  rw [h]

@[simp] theorem estimateBearing_alreadyTraveledCoords (T : Turf) (s : Session) (p : Coord) (speed heading : JsValue) :
    (estimateBearing T s p speed heading).1.alreadyTraveledCoords = s.alreadyTraveledCoords := by
  obtain ⟨_, _, h⟩ := estimateBearing_frame T s p speed heading
  rw [h]

@[simp] theorem estimateBearing_routeGeoJSON (T : Turf) (s : Session) (p : Coord) (speed heading : JsValue) :
    (estimateBearing T s p speed heading).1.routeGeoJSON = s.routeGeoJSON := by
  obtain ⟨_, _, h⟩ := estimateBearing_frame T s p speed heading
  rw [h]

@[simp] theorem estimateBearing_lastRecalculation (T : Turf) (s : Session) (p : Coord) (speed heading : JsValue) :
    (estimateBearing T s p speed heading).1.lastRecalculation = s.lastRecalculation := by
  obtain ⟨_, _, h⟩ := estimateBearing_frame T s p speed heading
  rw [h]

@[simp] theorem estimateBearing_lastKnownPosition (T : Turf) (s : Session) (p : Coord) (speed heading : JsValue) :
    (estimateBearing T s p speed heading).1.lastKnownPosition = s.lastKnownPosition := by
  obtain ⟨_, _, h⟩ := estimateBearing_frame T s p speed heading
  rw [h]

@[simp] theorem estimateBearing_targetPositionRef (T : Turf) (s : Session) (p : Coord) (speed heading : JsValue) :
    (estimateBearing T s p speed heading).1.targetPositionRef = s.targetPositionRef := by
  obtain ⟨_, _, h⟩ := estimateBearing_frame T s p speed heading
  rw [h]

@[simp] theorem estimateBearing_currentPositionRef (T : Turf) (s : Session) (p : Coord) (speed heading : JsValue) :
    (estimateBearing T s p speed heading).1.currentPositionRef = s.currentPositionRef := by
  obtain ⟨_, _, h⟩ := estimateBearing_frame T s p speed heading
  rw [h]

@[simp] theorem estimateBearing_routeDrawnForDestinations (T : Turf) (s : Session) (p : Coord) (speed heading : JsValue) :
    (estimateBearing T s p speed heading).1.routeDrawnForDestinations = s.routeDrawnForDestinations := by
  obtain ⟨_, _, h⟩ := estimateBearing_frame T s p speed heading
  rw [h]

@[simp] theorem estimateBearing_routeSource (T : Turf) (s : Session) (p : Coord) (speed heading : JsValue) :
    (estimateBearing T s p speed heading).1.routeSource = s.routeSource := by
  obtain ⟨_, _, h⟩ := estimateBearing_frame T s p speed heading
  rw [h]

@[simp] theorem estimateBearing_recenterTimers (T : Turf) (s : Session) (p : Coord) (speed heading : JsValue) :
    (estimateBearing T s p speed heading).1.recenterTimers = s.recenterTimers := by
  obtain ⟨_, _, h⟩ := estimateBearing_frame T s p speed heading
  rw [h]

@[simp] theorem estimateBearing_inFlight (T : Turf) (s : Session) (p : Coord) (speed heading : JsValue) :
    (estimateBearing T s p speed heading).1.inFlight = s.inFlight := by
  obtain ⟨_, _, h⟩ := estimateBearing_frame T s p speed heading
  rw [h]

/-- For a fix with numeric, non-NaN coordinates the handler stores the result of
the snap-to-route block as the target. -/
theorem onPosition_targetPositionRef (T : Turf) (s : Session) (pos : Fix) (lng lat : JsNum)
    (now : Int) (hlng : pos.longitude = JsValue.number lng) (hlat : pos.latitude = JsValue.number lat)
    (nlng : lng.isNaN = false) (nlat : lat.isNaN = false) :
    (onPosition T s pos now).1.targetPositionRef
      = some (snapTarget T s.routeGeoJSON (lng, lat)) := by
  unfold onPosition
  simp only [hlng, hlat, nlng, nlat, Bool.or_self, Bool.false_eq_true, if_false]
  split <;> simp

/-! ### Map matcher -/

/-- C1: for a valid fix, the target written by the position handler is the raw
fix point when no route is active (route absent, or fewer than 2 coordinates);
with an active route at distance `d` from the fix it is the snapped point when
`d < 30` and the raw fix point when `d ≥ 30`, so 29.9 snaps while 30 and 30.1
do not. -/
theorem snap_target_policy (T : Turf) (s : Session) (pos : Fix) (lng lat : JsNum) (now : Int)
    (hlng : pos.longitude = JsValue.number lng) (hlat : pos.latitude = JsValue.number lat)
    (nlng : lng.isNaN = false) (nlat : lat.isNaN = false) :
    (s.routeGeoJSON = none →
      (onPosition T s pos now).1.targetPositionRef = some { lng := lng, lat := lat }) ∧
    (∀ coords, s.routeGeoJSON = some coords → coords.length < 2 →
      (onPosition T s pos now).1.targetPositionRef = some { lng := lng, lat := lat }) ∧
    (∀ coords snapped d, s.routeGeoJSON = some coords → 2 ≤ coords.length →
      T.nearestPointOnLine coords (lng, lat) = some snapped →
      T.distance (lng, lat) snapped.coordinates = some (JsNum.fin d) →
      (d < 30 → (onPosition T s pos now).1.targetPositionRef
          = some { lng := snapped.coordinates.1, lat := snapped.coordinates.2 }) ∧
      (30 ≤ d → (onPosition T s pos now).1.targetPositionRef
          = some { lng := lng, lat := lat }) ∧
      (d = 299 / 10 → (onPosition T s pos now).1.targetPositionRef
          = some { lng := snapped.coordinates.1, lat := snapped.coordinates.2 }) ∧
      (d = 30 ∨ d = 301 / 10 → (onPosition T s pos now).1.targetPositionRef
          = some { lng := lng, lat := lat })) := by
  rw [onPosition_targetPositionRef T s pos lng lat now hlng hlat nlng nlat]
  have key : ∀ coords snapped d, s.routeGeoJSON = some coords → 2 ≤ coords.length →
      T.nearestPointOnLine coords (lng, lat) = some snapped →
      T.distance (lng, lat) snapped.coordinates = some (JsNum.fin d) →
      snapTarget T s.routeGeoJSON (lng, lat) =
        if d < 30 then { lng := snapped.coordinates.1, lat := snapped.coordinates.2 }
        else { lng := lng, lat := lat } := by
    intro coords snapped d hr hlen hn hd
    have hlen2 : coords.length > 1 := hlen
    have h30 : (30 : JsNum) = JsNum.fin 30 := rfl
    simp only [snapTarget, hr, hlen2, if_true, hn, hd, h30, JsNum.lt, decide_eq_true_eq]
    norm_num
  refine ⟨?_, ?_, ?_⟩
  · intro hr
    simp [snapTarget, hr]
  · intro coords hr hlen
    have : ¬ coords.length > 1 := by omega
    simp [snapTarget, hr, this]
  · intro coords snapped d hr hlen hn hd
    rw [key coords snapped d hr hlen hn hd]
    refine ⟨?_, ?_, ?_, ?_⟩
    · intro h; rw [if_pos h]
    · intro h; rw [if_neg (not_lt.mpr h)]
    · intro h; subst h; rw [if_pos (by norm_num)]
    · intro h
      rcases h with h | h <;> subst h <;> rw [if_neg (by norm_num)]

/-- Instance of `snap_target_policy`: on the sample route, a fix 29.9 away from the
nearest route point gets the snapped point as its target. -/
theorem snap_target_policy_witness :
    (fixAt 0 (299 / 10) JsValue.null JsValue.null).longitude = JsValue.number (JsNum.fin 0) ∧
    (fixAt 0 (299 / 10) JsValue.null JsValue.null).latitude = JsValue.number (JsNum.fin (299 / 10)) ∧
    (JsNum.fin 0).isNaN = false ∧ (JsNum.fin (299 / 10)).isNaN = false ∧
    sampleSession.routeGeoJSON = some [pt 0 0, pt 100 0] ∧
    sampleTurf.nearestPointOnLine [pt 0 0, pt 100 0] (JsNum.fin 0, JsNum.fin (299 / 10))
      = some { coordinates := pt 0 0, index := 0 } ∧
    sampleTurf.distance (JsNum.fin 0, JsNum.fin (299 / 10)) (pt 0 0) = some (JsNum.fin (299 / 10)) ∧
    (onPosition sampleTurf sampleSession (fixAt 0 (299 / 10) JsValue.null JsValue.null) 0).1.targetPositionRef
      = some { lng := JsNum.fin 0, lat := JsNum.fin 0 } := by
  have hd : sampleTurf.distance (JsNum.fin 0, JsNum.fin (299 / 10)) (pt 0 0)
      = some (JsNum.fin (299 / 10)) := by
    simp [sampleTurf, sampleDistance, pt]
    norm_num
  exact ⟨rfl, rfl, rfl, rfl, rfl, rfl, hd,
    ((snap_target_policy sampleTurf sampleSession
        (fixAt 0 (299 / 10) JsValue.null JsValue.null) (JsNum.fin 0) (JsNum.fin (299 / 10)) 0
        rfl rfl rfl rfl).2.2 [pt 0 0, pt 100 0] { coordinates := pt 0 0, index := 0 } (299 / 10)
        rfl (by decide) rfl hd).2.2.1 rfl⟩

/-! ### Position smoother -/

/-- One tick of `animateMarker` on finite positions. -/
theorem animateMarker_fin (s : Session) (cx cy tx ty : ℚ)
    (hc : s.currentPositionRef = some { lng := JsNum.fin cx, lat := JsNum.fin cy })
    (ht : s.targetPositionRef = some { lng := JsNum.fin tx, lat := JsNum.fin ty }) :
    (animateMarker s).currentPositionRef
      = some { lng := JsNum.fin (cx + (tx - cx) * (1 / 5)), lat := JsNum.fin (cy + (ty - cy) * (1 / 5)) } ∧
    (animateMarker s).targetPositionRef = some { lng := JsNum.fin tx, lat := JsNum.fin ty } := by
  simp [animateMarker, hc, ht, interpolationFactor]

/-- C2: with a fixed target, after `k` runs of `animateMarker` each coordinate gap
is `(1 - 1/5)^k` times the initial gap (exactly, over the rationals), and so the
squared residual distance is `((1 - 1/5)^k)^2` times the squared initial distance. -/
theorem animateMarker_geometric (s : Session) (cx cy tx ty : ℚ) (k : ℕ)
    (hc : s.currentPositionRef = some { lng := JsNum.fin cx, lat := JsNum.fin cy })
    (ht : s.targetPositionRef = some { lng := JsNum.fin tx, lat := JsNum.fin ty }) :
    ∃ x y : ℚ,
      (animateMarker^[k] s).currentPositionRef = some { lng := JsNum.fin x, lat := JsNum.fin y } ∧
      (animateMarker^[k] s).targetPositionRef = some { lng := JsNum.fin tx, lat := JsNum.fin ty } ∧
      x - tx = (1 - 1 / 5) ^ k * (cx - tx) ∧
      y - ty = (1 - 1 / 5) ^ k * (cy - ty) ∧
      (x - tx) ^ 2 + (y - ty) ^ 2 = ((1 - 1 / 5) ^ k) ^ 2 * ((cx - tx) ^ 2 + (cy - ty) ^ 2) := by
  induction k generalizing s cx cy with
  | zero => exact ⟨cx, cy, by simpa using hc, by simpa using ht, by simp, by simp, by simp⟩
  | succ n ih =>
    obtain ⟨h1, h2⟩ := animateMarker_fin s cx cy tx ty hc ht
    obtain ⟨x, y, hx, hy, gx, gy, _⟩ := ih (animateMarker s) _ _ h1 h2
    refine ⟨x, y, by simpa [Function.iterate_succ] using hx,
      by simpa [Function.iterate_succ] using hy, ?_, ?_, ?_⟩
    · rw [gx]; ring
    · rw [gy]; ring
    · have ex : x - tx = (1 - 1 / 5) ^ (n + 1) * (cx - tx) := by rw [gx]; ring
      have ey : y - ty = (1 - 1 / 5) ^ (n + 1) * (cy - ty) := by rw [gy]; ring
      rw [ex, ey]; ring

/-- Instance of `animateMarker_geometric`: from (0, 0) toward the target (5, 10),
three ticks leave the gap `(4/5)^3` of the initial one. -/
theorem animateMarker_geometric_witness :
    ∃ x y : ℚ,
      (animateMarker^[3] { sampleSession with
          currentPositionRef := some { lng := JsNum.fin 0, lat := JsNum.fin 0 }
          targetPositionRef := some { lng := JsNum.fin 5, lat := JsNum.fin 10 } }).currentPositionRef
        = some { lng := JsNum.fin x, lat := JsNum.fin y } ∧
      x - 5 = (1 - 1 / 5) ^ 3 * (0 - 5) ∧ y - 10 = (1 - 1 / 5) ^ 3 * (0 - 10) := by
  obtain ⟨x, y, h, _, gx, gy, _⟩ := animateMarker_geometric
    { sampleSession with
      currentPositionRef := some { lng := JsNum.fin 0, lat := JsNum.fin 0 }
      targetPositionRef := some { lng := JsNum.fin 5, lat := JsNum.fin 10 } } 0 0 5 10 3 rfl rfl
  exact ⟨x, y, h, gx, gy⟩

/-! ### Route progress -/

/-- The progress block when its gate is open and the geometry calls return. -/
theorem updateProgress_open (T : Turf) (s : Session) (p : Coord) (now : Int)
    (route : List Coord) (snapped : NearestPoint) (d : JsNum)
    (hmap : s.mapCurrent = true) (hsrc : s.routeSource.isSome = true)
    (hr : s.routeGeoJSON = some route) (hgate : now - s.lastRecalculation > 5000)
    (hn : T.nearestPointOnLine route p = some snapped)
    (hd : T.distance p snapped.coordinates = some d) :
    (updateProgress T s p now).1.alreadyTraveledCoords
      = coordsBefore route snapped.index snapped.coordinates ∧
    (updateProgress T s p now).2.head?
      = some (Effect.setData
          [{ color := Color.gray, coordinates := coordsBefore route snapped.index snapped.coordinates },
           { color := Color.blue, coordinates := coordsAfter route snapped.index snapped.coordinates }]) := by
  unfold updateProgress
  simp only [hr, hgate, if_true, hn, hd, hmap, hsrc, Bool.and_self]
  split <;> simp

/-- A valid fix on a session with a map: the handler ends with the progress block,
run on a session that differs from the initial one only in the position refs,
the marker, the recenter flag and the stable bearing; before it, at most camera
moves are emitted. -/
theorem onPosition_progress (T : Turf) (s : Session) (pos : Fix) (lng lat : JsNum) (now : Int)
    (hlng : pos.longitude = JsValue.number lng) (hlat : pos.latitude = JsValue.number lat)
    (nlng : lng.isNaN = false) (nlat : lat.isNaN = false) (hmap : s.mapCurrent = true) :
    ∃ (s3 : Session) (camera : List Effect),
      onPosition T s pos now
        = ((updateProgress T s3 (lng, lat) now).1, camera ++ (updateProgress T s3 (lng, lat) now).2) ∧
      s3.routeGeoJSON = s.routeGeoJSON ∧ s3.lastRecalculation = s.lastRecalculation ∧
      s3.mapCurrent = s.mapCurrent ∧ s3.routeSource = s.routeSource ∧
      s3.destinations = s.destinations ∧ s3.inFlight = s.inFlight ∧
      s3.alreadyTraveledCoords = s.alreadyTraveledCoords ∧
      (∀ e ∈ camera, ∃ b, e = Effect.easeTo (lng, lat) b 1000) := by
  unfold onPosition
  simp only [hlng, hlat, nlng, nlat, hmap, Bool.or_self, Bool.false_eq_true, if_false,
    Bool.not_true, Bool.and_false]
  refine ⟨_, _, rfl, ?_, ?_, ?_, ?_, ?_, ?_, ?_, ?_⟩
  all_goals simp [hmap]

/-- C3: when the progress block runs for a route of `n` coordinates (any `n`, so
also every `n ≥ 2`) with matched segment index `i < n` and snapped point `sp`,
the handler stores
`traveled = route[0..=i] ++ [sp]` and draws it in gray together with
`remaining = [sp] ++ route[i+1..]` in blue; `route[0..=i]` has `i + 1` points,
the last point of `traveled` and the first point of `remaining` are both `sp`,
and `traveled` without its last point followed by `remaining` without its first
point is the route. -/
theorem progress_split (T : Turf) (s : Session) (pos : Fix) (lng lat : JsNum) (now : Int)
    (route : List Coord) (snapped : NearestPoint) (d : JsNum)
    (hlng : pos.longitude = JsValue.number lng) (hlat : pos.latitude = JsValue.number lat)
    (nlng : lng.isNaN = false) (nlat : lat.isNaN = false)
    (hmap : s.mapCurrent = true) (hsrc : s.routeSource.isSome = true)
    (hr : s.routeGeoJSON = some route)
    (hgate : now - s.lastRecalculation > 5000)
    (hn : T.nearestPointOnLine route (lng, lat) = some snapped)
    (hi : snapped.index < route.length)
    (hd : T.distance (lng, lat) snapped.coordinates = some d) :
    (onPosition T s pos now).1.alreadyTraveledCoords
      = route.take (snapped.index + 1) ++ [snapped.coordinates] ∧
    Effect.setData
      [{ color := Color.gray, coordinates := route.take (snapped.index + 1) ++ [snapped.coordinates] },
       { color := Color.blue, coordinates := snapped.coordinates :: route.drop (snapped.index + 1) }]
      ∈ (onPosition T s pos now).2 ∧
    (route.take (snapped.index + 1)).length = snapped.index + 1 ∧
    (route.take (snapped.index + 1) ++ [snapped.coordinates]).getLast? = some snapped.coordinates ∧
    (snapped.coordinates :: route.drop (snapped.index + 1)).head? = some snapped.coordinates ∧
    (route.take (snapped.index + 1) ++ [snapped.coordinates]).dropLast
      ++ (snapped.coordinates :: route.drop (snapped.index + 1)).tail = route := by
  obtain ⟨s3, camera, heq, h1, h2, h3, h4, _, _, _, _⟩ :=
    onPosition_progress T s pos lng lat now hlng hlat nlng nlat hmap
  obtain ⟨ht, he⟩ := updateProgress_open T s3 (lng, lat) now route snapped d
    (by rw [h3, hmap]) (by rw [h4, hsrc]) (by rw [h1, hr]) (by rw [h2]; exact hgate) hn hd
  rw [heq]
  refine ⟨ht, ?_, ?_, ?_, ?_, ?_⟩
  · apply List.mem_append_right
    exact List.mem_of_mem_head? he
  · rw [List.length_take]; omega
  · simp
  · simp
  · simp

/-- Instance of `progress_split`: on the sample route a fix at (0, 10) splits the
route at its first vertex. -/
theorem progress_split_witness :
    sampleSession.routeGeoJSON = some [pt 0 0, pt 100 0] ∧
    (6000 : Int) - sampleSession.lastRecalculation > 5000 ∧
    (onPosition sampleTurf sampleSession (fixAt 0 10 JsValue.null JsValue.null) 6000).1.alreadyTraveledCoords
      = [pt 0 0, pt 0 0] ∧
    Effect.setData
      [{ color := Color.gray, coordinates := [pt 0 0, pt 0 0] },
       { color := Color.blue, coordinates := [pt 0 0, pt 100 0] }]
      ∈ (onPosition sampleTurf sampleSession (fixAt 0 10 JsValue.null JsValue.null) 6000).2 := by
  have h := progress_split sampleTurf sampleSession (fixAt 0 10 JsValue.null JsValue.null)
    (JsNum.fin 0) (JsNum.fin 10) 6000 [pt 0 0, pt 100 0] { coordinates := pt 0 0, index := 0 }
    (JsNum.fin 10) rfl rfl rfl rfl rfl rfl rfl (by decide) rfl (by decide)
    (by simp [sampleTurf, sampleDistance, pt])
  exact ⟨rfl, by decide, h.1, h.2.1⟩

/-! ### Recalculation on deviation -/

/-- The progress block emits no route call when its gate is closed. -/
theorem updateProgress_closed (T : Turf) (s : Session) (p : Coord) (now : Int)
    (hgate : ¬ now - s.lastRecalculation > 5000) :
    updateProgress T s p now = (s, []) := by
  unfold updateProgress
  split
  · rfl
  · rw [if_neg hgate]

/-- A call of `fetchAndDrawRoute` with a valid origin is recorded first. -/
theorem callFetchAndDrawRoute_head (ds : List Destination) (s : Session) (a b : JsNum)
    (k : Option Int) :
    (callFetchAndDrawRoute ds s [JsValue.number a, JsValue.number b] k).2.head?
      = some (Effect.fetchAndDrawRouteCalled [JsValue.number a, JsValue.number b]) := by
  rcases callFetchAndDrawRoute_valid ds s a b k with h | ⟨rs, effects, h, _, _⟩ <;> rw [h] <;> rfl

/-- Camera moves are not route calls. -/
theorem dispatched_camera_append (camera effects : List Effect)
    (h : ∀ e ∈ camera, ∃ c b t, e = Effect.easeTo c b t) :
    dispatched (camera ++ effects) = dispatched effects := by
  unfold dispatched
  rw [List.any_append]
  have : camera.any Effect.isRouteCall = false := by
    rw [List.any_eq_false]
    intro e he
    obtain ⟨c, b, t, rfl⟩ := h e he
    simp [Effect.isRouteCall]
  rw [this, Bool.false_or]

/-- The progress block more than 50 m from the route, with its gate open: the
route is redrawn and `fetchAndDrawRoute` is called with the fix as origin. -/
theorem updateProgress_deviation (T : Turf) (s : Session) (p : Coord) (now : Int)
    (route : List Coord) (snapped : NearestPoint) (d : JsNum)
    (hmap : s.mapCurrent = true) (hsrc : s.routeSource.isSome = true)
    (hr : s.routeGeoJSON = some route) (hgate : now - s.lastRecalculation > 5000)
    (hn : T.nearestPointOnLine route p = some snapped)
    (hd : T.distance p snapped.coordinates = some d) (hdev : d.gt 50 = true) :
    ∃ s2 : Session,
      updateProgress T s p now
        = ((callFetchAndDrawRoute s.destinations s2 [JsValue.number p.1, JsValue.number p.2]
              (some now)).1,
           Effect.setData
             [{ color := Color.gray, coordinates := coordsBefore route snapped.index snapped.coordinates },
              { color := Color.blue, coordinates := coordsAfter route snapped.index snapped.coordinates }]
            :: (callFetchAndDrawRoute s.destinations s2 [JsValue.number p.1, JsValue.number p.2]
              (some now)).2) ∧
      s2.mapCurrent = true ∧ s2.routeSource.isSome = true ∧ s2.routeGeoJSON = some route ∧
      s2.inFlight = s.inFlight ∧ s2.lastRecalculation = s.lastRecalculation := by
  unfold updateProgress
  simp only [hr, hgate, if_true, hn, hd, hmap, hsrc, Bool.and_self, hdev]
  exact ⟨_, rfl, rfl, rfl, rfl, rfl, rfl⟩

/-- The progress block within 50 m of the route, with its gate open: the route is
redrawn, nothing is requested and `lastRecalculation` keeps its value. -/
theorem updateProgress_onRoute (T : Turf) (s : Session) (p : Coord) (now : Int)
    (route : List Coord) (snapped : NearestPoint) (d : JsNum)
    (hmap : s.mapCurrent = true) (hsrc : s.routeSource.isSome = true)
    (hr : s.routeGeoJSON = some route) (hgate : now - s.lastRecalculation > 5000)
    (hn : T.nearestPointOnLine route p = some snapped)
    (hd : T.distance p snapped.coordinates = some d) (hdev : d.gt 50 = false) :
    (updateProgress T s p now).2
      = [Effect.setData
          [{ color := Color.gray, coordinates := coordsBefore route snapped.index snapped.coordinates },
           { color := Color.blue, coordinates := coordsAfter route snapped.index snapped.coordinates }]] ∧
    (updateProgress T s p now).1.lastRecalculation = s.lastRecalculation ∧
    (updateProgress T s p now).1.inFlight = s.inFlight ∧
    (updateProgress T s p now).1.routeSource.isSome = true := by
  unfold updateProgress
  simp only [hr, hgate, if_true, hn, hd, hmap, hsrc, Bool.and_self, hdev]
  simp

/-- A deviating fix with the gate open: `fetchAndDrawRoute` is called, and either
the request goes in flight with `lastRecalculation` still at its old value, or
no provider call was needed and `lastRecalculation` is the time of the fix. -/
theorem onPosition_deviation (T : Turf) (s : Session) (pos : Fix) (lng lat : JsNum) (now : Int)
    (route : List Coord) (snapped : NearestPoint) (d : JsNum)
    (hlng : pos.longitude = JsValue.number lng) (hlat : pos.latitude = JsValue.number lat)
    (nlng : lng.isNaN = false) (nlat : lat.isNaN = false)
    (hmap : s.mapCurrent = true) (hsrc : s.routeSource.isSome = true)
    (hr : s.routeGeoJSON = some route) (hgate : now - s.lastRecalculation > 5000)
    (hn : T.nearestPointOnLine route (lng, lat) = some snapped)
    (hd : T.distance (lng, lat) snapped.coordinates = some d) (hdev : d.gt 50 = true) :
    dispatched (onPosition T s pos now).2 = true ∧
    (onPosition T s pos now).1.mapCurrent = true ∧
    (onPosition T s pos now).1.routeSource.isSome = true ∧
    (onPosition T s pos now).1.routeGeoJSON = some route ∧
    ((∃ w, (onPosition T s pos now).1.inFlight = s.inFlight ++ [{ waypoints := w, thenRecalcAt := some now }] ∧
        (onPosition T s pos now).1.lastRecalculation = s.lastRecalculation) ∨
      ((onPosition T s pos now).1.inFlight = s.inFlight ∧
        (onPosition T s pos now).1.lastRecalculation = now)) := by
  obtain ⟨s3, camera, heq, h1, h2, h3, h4, h5, h6, _, hc⟩ :=
    onPosition_progress T s pos lng lat now hlng hlat nlng nlat hmap
  obtain ⟨s2, hu, g1, g2, g3, g4, g5⟩ := updateProgress_deviation T s3 (lng, lat) now route snapped d
    (by rw [h3, hmap]) (by rw [h4, hsrc]) (by rw [h1, hr]) (by rw [h2]; exact hgate) hn hd hdev
  rw [heq, hu]
  refine ⟨?_, ?_⟩
  · rw [dispatched_camera_append _ _ (fun e he => by
      obtain ⟨b, rfl⟩ := hc e he; exact ⟨_, _, _, rfl⟩)]
    have hh := callFetchAndDrawRoute_head s3.destinations s2 lng lat (some now)
    unfold dispatched
    rw [List.any_cons]
    cases hl : (callFetchAndDrawRoute s3.destinations s2
        [JsValue.number lng, JsValue.number lat] (some now)).2 with
    | nil => rw [hl] at hh; simp at hh
    | cons e es =>
      rw [hl] at hh
      simp only [List.head?_cons, Option.some.injEq] at hh
      subst hh
      simp [Effect.isRouteCall]
  · rcases callFetchAndDrawRoute_valid s3.destinations s2 lng lat (some now) with
      h | ⟨rs, effects, h, _, hs⟩
    · rw [h]
      dsimp only
      refine ⟨g1, g2, g3, Or.inl ⟨(lng, lat) :: s3.destinations.filterMap Destination.validCoords, ?_, ?_⟩⟩
      · rw [g4, h6]
      · rw [g5, h2]
    · rw [h]
      dsimp only
      refine ⟨g1, hs g2, g3, Or.inr ⟨?_, ?_⟩⟩
      · rw [g4, h6]
      · rfl

/-- Camera moves do not redraw the route. -/
theorem progressRecomputed_camera_append (camera effects : List Effect)
    (h : ∀ e ∈ camera, ∃ c b t, e = Effect.easeTo c b t) :
    progressRecomputed (camera ++ effects) = progressRecomputed effects := by
  unfold progressRecomputed
  rw [List.any_append]
  have : (camera.any fun e =>
      match e with
      | Effect.setData [f, g] => f.color == Color.gray && g.color == Color.blue
      | _ => false) = false := by
    rw [List.any_eq_false]
    intro e he
    obtain ⟨c, b, t, rfl⟩ := h e he
    simp
  rw [this, Bool.false_or]

/-- A valid fix while the gate on `lastRecalculation` is closed: nothing is
redrawn or requested, and the route, its source, the requests in flight and
`lastRecalculation` are as before. -/
theorem onPosition_gate_closed (T : Turf) (s : Session) (pos : Fix) (lng lat : JsNum) (now : Int)
    (hlng : pos.longitude = JsValue.number lng) (hlat : pos.latitude = JsValue.number lat)
    (nlng : lng.isNaN = false) (nlat : lat.isNaN = false)
    (hmap : s.mapCurrent = true) (hgate : ¬ now - s.lastRecalculation > 5000) :
    dispatched (onPosition T s pos now).2 = false ∧
    progressRecomputed (onPosition T s pos now).2 = false ∧
    (onPosition T s pos now).1.mapCurrent = true ∧
    (onPosition T s pos now).1.routeSource = s.routeSource ∧
    (onPosition T s pos now).1.routeGeoJSON = s.routeGeoJSON ∧
    (onPosition T s pos now).1.inFlight = s.inFlight ∧
    (onPosition T s pos now).1.lastRecalculation = s.lastRecalculation := by
  obtain ⟨s3, camera, heq, h1, h2, h3, h4, h5, h6, _, hc⟩ :=
    onPosition_progress T s pos lng lat now hlng hlat nlng nlat hmap
  have hcam : ∀ e ∈ camera, ∃ c b t, e = Effect.easeTo c b t := fun e he => by
    obtain ⟨b, rfl⟩ := hc e he; exact ⟨_, _, _, rfl⟩
  rw [heq, updateProgress_closed T s3 (lng, lat) now (by rw [h2]; exact hgate)]
  dsimp only
  rw [dispatched_camera_append _ _ hcam, progressRecomputed_camera_append _ _ hcam]
  exact ⟨rfl, rfl, by rw [h3, hmap], h4, h1, h6, h2⟩

/-- A valid fix within 50 m of the route while the gate is open: the split is
redrawn, nothing is requested and `lastRecalculation` is not advanced. -/
theorem onPosition_onRoute (T : Turf) (s : Session) (pos : Fix) (lng lat : JsNum) (now : Int)
    (route : List Coord) (snapped : NearestPoint) (d : JsNum)
    (hlng : pos.longitude = JsValue.number lng) (hlat : pos.latitude = JsValue.number lat)
    (nlng : lng.isNaN = false) (nlat : lat.isNaN = false)
    (hmap : s.mapCurrent = true) (hsrc : s.routeSource.isSome = true)
    (hr : s.routeGeoJSON = some route) (hgate : now - s.lastRecalculation > 5000)
    (hn : T.nearestPointOnLine route (lng, lat) = some snapped)
    (hd : T.distance (lng, lat) snapped.coordinates = some d) (hdev : d.gt 50 = false) :
    dispatched (onPosition T s pos now).2 = false ∧
    progressRecomputed (onPosition T s pos now).2 = true ∧
    (onPosition T s pos now).1.mapCurrent = true ∧
    (onPosition T s pos now).1.routeSource.isSome = true ∧
    (onPosition T s pos now).1.routeGeoJSON = some route ∧
    (onPosition T s pos now).1.inFlight = s.inFlight ∧
    (onPosition T s pos now).1.lastRecalculation = s.lastRecalculation := by
  obtain ⟨s3, camera, heq, h1, h2, h3, h4, h5, h6, _, hc⟩ :=
    onPosition_progress T s pos lng lat now hlng hlat nlng nlat hmap
  have hcam : ∀ e ∈ camera, ∃ c b t, e = Effect.easeTo c b t := fun e he => by
    obtain ⟨b, rfl⟩ := hc e he; exact ⟨_, _, _, rfl⟩
  obtain ⟨e1, e2, e3, e4⟩ := updateProgress_onRoute T s3 (lng, lat) now route snapped d
    (by rw [h3, hmap]) (by rw [h4, hsrc]) (by rw [h1, hr]) (by rw [h2]; exact hgate) hn hd hdev
  rw [heq]
  dsimp only
  rw [dispatched_camera_append _ _ hcam, progressRecomputed_camera_append _ _ hcam, e1]
  refine ⟨by simp [dispatched, Effect.isRouteCall], by simp [progressRecomputed], ?_, e4, ?_,
    by rw [e3, h6], by rw [e2, h2]⟩
  · rw [updateProgress_mapCurrent, h3, hmap]
  · rw [updateProgress_routeGeoJSON, h1, hr]

/-- The answer of the provider changes only the route and its drawn source. -/
theorem fetchAndDrawRouteResume_frame (s : Session) (response : ProviderResponse) :
    ∃ rg rs, (fetchAndDrawRouteResume s response).1 =
      { s with routeGeoJSON := rg, routeSource := rs } := by
  unfold fetchAndDrawRouteResume
  repeat' first | split | (dsimp only; split)
  all_goals exact ⟨_, _, rfl⟩

/-- With a map and a drawn source, the source stays drawn after the answer, and
the route is the one of the answer if it carries one and the old one otherwise. -/
theorem fetchAndDrawRouteResume_route (s : Session) (response : ProviderResponse)
    (hmap : s.mapCurrent = true) (hsrc : s.routeSource.isSome = true) :
    (fetchAndDrawRouteResume s response).1.routeSource.isSome = true ∧
    (fetchAndDrawRouteResume s response).1.routeGeoJSON
      = (match response with
         | ProviderResponse.route coordinates => some coordinates
         | _ => s.routeGeoJSON) := by
  cases response <;> simp [fetchAndDrawRouteResume, hmap, hsrc]

/-- The answer to the request issued last, when that request came from the
position handler: `fetchAndDrawRoute` resumes on the session without the
request, and then `lastRecalculation` is set to the time of the fix. -/
theorem onResolve_last (s : Session) (fl : List InFlight) (w : List Coord) (now : Int)
    (response : ProviderResponse)
    (h : s.inFlight = fl ++ [{ waypoints := w, thenRecalcAt := some now }]) :
    onResolve s fl.length response
      = ({ (fetchAndDrawRouteResume { s with inFlight := fl } response).1 with
            lastRecalculation := now },
         (fetchAndDrawRouteResume { s with inFlight := fl } response).2) := by
  unfold onResolve
  have hget : s.inFlight.get? fl.length = some { waypoints := w, thenRecalcAt := some now } := by
    rw [h]; simp
  have herase : s.inFlight.eraseIdx fl.length = fl := by
    rw [h, List.eraseIdx_append_of_length_le (le_refl _)]; simp
  rw [hget]
  simp only [herase]

@[simp] theorem fetchAndDrawRouteResume_origin (s : Session) (response : ProviderResponse) :
    (fetchAndDrawRouteResume s response).1.origin = s.origin := by
  obtain ⟨_, _, h⟩ := fetchAndDrawRouteResume_frame s response
  rw [h]

@[simp] theorem fetchAndDrawRouteResume_destinations (s : Session) (response : ProviderResponse) :
    (fetchAndDrawRouteResume s response).1.destinations = s.destinations := by
  obtain ⟨_, _, h⟩ := fetchAndDrawRouteResume_frame s response
  rw [h]

@[simp] theorem fetchAndDrawRouteResume_mapCurrent (s : Session) (response : ProviderResponse) :
    (fetchAndDrawRouteResume s response).1.mapCurrent = s.mapCurrent := by
  obtain ⟨_, _, h⟩ := fetchAndDrawRouteResume_frame s response
  rw [h]

@[simp] theorem fetchAndDrawRouteResume_shouldFollow (s : Session) (response : ProviderResponse) :
    (fetchAndDrawRouteResume s response).1.shouldFollow = s.shouldFollow := by
  obtain ⟨_, _, h⟩ := fetchAndDrawRouteResume_frame s response
  rw [h]

@[simp] theorem fetchAndDrawRouteResume_markerRef (s : Session) (response : ProviderResponse) :
    (fetchAndDrawRouteResume s response).1.markerRef = s.markerRef := by
  obtain ⟨_, _, h⟩ := fetchAndDrawRouteResume_frame s response
  rw [h]

@[simp] theorem fetchAndDrawRouteResume_alreadyTraveledCoords (s : Session) (response : ProviderResponse) :
    (fetchAndDrawRouteResume s response).1.alreadyTraveledCoords = s.alreadyTraveledCoords := by
  obtain ⟨_, _, h⟩ := fetchAndDrawRouteResume_frame s response
  rw [h]

@[simp] theorem fetchAndDrawRouteResume_lastRecalculation (s : Session) (response : ProviderResponse) :
    (fetchAndDrawRouteResume s response).1.lastRecalculation = s.lastRecalculation := by
  obtain ⟨_, _, h⟩ := fetchAndDrawRouteResume_frame s response
  rw [h]

@[simp] theorem fetchAndDrawRouteResume_lastKnownStableBearing (s : Session) (response : ProviderResponse) :
    (fetchAndDrawRouteResume s response).1.lastKnownStableBearing = s.lastKnownStableBearing := by
  obtain ⟨_, _, h⟩ := fetchAndDrawRouteResume_frame s response
  rw [h]

@[simp] theorem fetchAndDrawRouteResume_recenterClicked (s : Session) (response : ProviderResponse) :
    (fetchAndDrawRouteResume s response).1.recenterClicked = s.recenterClicked := by
  obtain ⟨_, _, h⟩ := fetchAndDrawRouteResume_frame s response
  rw [h]

@[simp] theorem fetchAndDrawRouteResume_lastKnownPosition (s : Session) (response : ProviderResponse) :
    (fetchAndDrawRouteResume s response).1.lastKnownPosition = s.lastKnownPosition := by
  obtain ⟨_, _, h⟩ := fetchAndDrawRouteResume_frame s response
  rw [h]

@[simp] theorem fetchAndDrawRouteResume_targetPositionRef (s : Session) (response : ProviderResponse) :
    (fetchAndDrawRouteResume s response).1.targetPositionRef = s.targetPositionRef := by
  obtain ⟨_, _, h⟩ := fetchAndDrawRouteResume_frame s response
  rw [h]

@[simp] theorem fetchAndDrawRouteResume_currentPositionRef (s : Session) (response : ProviderResponse) :
    (fetchAndDrawRouteResume s response).1.currentPositionRef = s.currentPositionRef := by
  obtain ⟨_, _, h⟩ := fetchAndDrawRouteResume_frame s response
  rw [h]

@[simp] theorem fetchAndDrawRouteResume_routeDrawnForDestinations (s : Session) (response : ProviderResponse) :
    (fetchAndDrawRouteResume s response).1.routeDrawnForDestinations = s.routeDrawnForDestinations := by
  obtain ⟨_, _, h⟩ := fetchAndDrawRouteResume_frame s response
  rw [h]

@[simp] theorem fetchAndDrawRouteResume_recenterTimers (s : Session) (response : ProviderResponse) :
    (fetchAndDrawRouteResume s response).1.recenterTimers = s.recenterTimers := by
  obtain ⟨_, _, h⟩ := fetchAndDrawRouteResume_frame s response
  rw [h]

@[simp] theorem fetchAndDrawRouteResume_inFlight (s : Session) (response : ProviderResponse) :
    (fetchAndDrawRouteResume s response).1.inFlight = s.inFlight := by
  obtain ⟨_, _, h⟩ := fetchAndDrawRouteResume_frame s response
  rw [h]

/-- A deviating fix with the gate open, answered at once by a provider whose
answer leaves the route as it is: the request is dispatched, nothing stays in
flight and `lastRecalculation` is the time of the fix. -/
theorem onPositionResolved_deviation (T : Turf) (s : Session) (pos : Fix) (lng lat : JsNum)
    (now : Int) (route : List Coord) (snapped : NearestPoint) (d : JsNum)
    (response : ProviderResponse)
    (hlng : pos.longitude = JsValue.number lng) (hlat : pos.latitude = JsValue.number lat)
    (nlng : lng.isNaN = false) (nlat : lat.isNaN = false)
    (hmap : s.mapCurrent = true) (hsrc : s.routeSource.isSome = true)
    (hr : s.routeGeoJSON = some route) (hgate : now - s.lastRecalculation > 5000)
    (hn : T.nearestPointOnLine route (lng, lat) = some snapped)
    (hd : T.distance (lng, lat) snapped.coordinates = some d) (hdev : d.gt 50 = true)
    (hresp : ∀ c, response = ProviderResponse.route c → c = route) :
    dispatched (onPositionResolved T s pos now response).2 = true ∧
    (onPositionResolved T s pos now response).1.mapCurrent = true ∧
    (onPositionResolved T s pos now response).1.routeSource.isSome = true ∧
    (onPositionResolved T s pos now response).1.routeGeoJSON = some route ∧
    (onPositionResolved T s pos now response).1.inFlight = s.inFlight ∧
    (onPositionResolved T s pos now response).1.lastRecalculation = now := by
  obtain ⟨hdis, m, src, rg, hcase⟩ := onPosition_deviation T s pos lng lat now route snapped d
    hlng hlat nlng nlat hmap hsrc hr hgate hn hd hdev
  unfold onPositionResolved
  dsimp only
  rcases hcase with ⟨w, hin, _⟩ | ⟨hin, hl⟩
  · have hlen : (onPosition T s pos now).1.inFlight.length > s.inFlight.length := by
      rw [hin]; simp
    have hidx : (onPosition T s pos now).1.inFlight.length - 1 = s.inFlight.length := by
      rw [hin]; simp
    rw [if_pos hlen, hidx, onResolve_last _ s.inFlight w now response hin]
    obtain ⟨r1, r2⟩ := fetchAndDrawRouteResume_route
      { (onPosition T s pos now).1 with inFlight := s.inFlight } response m src
    refine ⟨?_, ?_, r1, ?_, ?_, rfl⟩
    · unfold dispatched at hdis ⊢
      rw [List.any_append, hdis, Bool.true_or]
    · simp [m]
    · dsimp only
      rw [r2]
      cases response with
      | route c => rw [hresp c rfl]
      | failed => exact rg
      | notOk => exact rg
      | noRoutes => exact rg
    · simp
  · have hlen : ¬ (onPosition T s pos now).1.inFlight.length > s.inFlight.length := by
      rw [hin]; omega
    rw [if_neg hlen]
    exact ⟨hdis, m, src, rg, hin, hl⟩

/-- A fix while the gate is closed, with any provider: nothing is dispatched and
the session is as after the handler alone. -/
theorem onPositionResolved_gate_closed (T : Turf) (s : Session) (pos : Fix) (lng lat : JsNum)
    (now : Int) (response : ProviderResponse)
    (hlng : pos.longitude = JsValue.number lng) (hlat : pos.latitude = JsValue.number lat)
    (nlng : lng.isNaN = false) (nlat : lat.isNaN = false)
    (hmap : s.mapCurrent = true) (hgate : ¬ now - s.lastRecalculation > 5000) :
    dispatched (onPositionResolved T s pos now response).2 = false ∧
    (onPositionResolved T s pos now response).1.mapCurrent = true ∧
    (onPositionResolved T s pos now response).1.routeSource = s.routeSource ∧
    (onPositionResolved T s pos now response).1.routeGeoJSON = s.routeGeoJSON ∧
    (onPositionResolved T s pos now response).1.inFlight = s.inFlight ∧
    (onPositionResolved T s pos now response).1.lastRecalculation = s.lastRecalculation := by
  obtain ⟨hdis, _, m, src, rg, hin, hl⟩ :=
    onPosition_gate_closed T s pos lng lat now hlng hlat nlng nlat hmap hgate
  unfold onPositionResolved
  dsimp only
  have hlen : ¬ (onPosition T s pos now).1.inFlight.length > s.inFlight.length := by
    rw [hin]; omega
  rw [if_neg hlen]
  exact ⟨hdis, m, src, rg, hin, hl⟩

/-- C4 (as amended): for a valid fix more than 50 m from the active route, the
handler calls `fetchAndDrawRoute` exactly when more than 5000 ms have passed
since `lastRecalculation`, whatever the dedup key holds; and when the provider
answers at once and leaves the route as it is, deviations at `t`, `t + 1000`,
`t + 4000` and `t + 6000`, with `t` more than 5000 ms after `lastRecalculation`,
dispatch at `t` and `t + 6000` only. -/
theorem deviation_time_gate (T : Turf) (s : Session) (pos : Fix) (lng lat : JsNum)
    (route : List Coord) (snapped : NearestPoint) (d : JsNum)
    (hlng : pos.longitude = JsValue.number lng) (hlat : pos.latitude = JsValue.number lat)
    (nlng : lng.isNaN = false) (nlat : lat.isNaN = false)
    (hmap : s.mapCurrent = true) (hsrc : s.routeSource.isSome = true)
    (hr : s.routeGeoJSON = some route)
    (hn : T.nearestPointOnLine route (lng, lat) = some snapped)
    (hd : T.distance (lng, lat) snapped.coordinates = some d) (hdev : d.gt 50 = true) :
    (∀ now : Int, dispatched (onPosition T s pos now).2 = true ↔ now - s.lastRecalculation > 5000) ∧
    (∀ (t : Int) (r1 r2 r3 r4 : ProviderResponse),
      t - s.lastRecalculation > 5000 →
      (∀ r ∈ [r1, r2, r3, r4], ∀ c, r = ProviderResponse.route c → c = route) →
      let o1 := onPositionResolved T s pos t r1
      let o2 := onPositionResolved T o1.1 pos (t + 1000) r2
      let o3 := onPositionResolved T o2.1 pos (t + 4000) r3
      let o4 := onPositionResolved T o3.1 pos (t + 6000) r4
      dispatched o1.2 = true ∧ dispatched o2.2 = false ∧ dispatched o3.2 = false ∧
        dispatched o4.2 = true) := by
  constructor
  · intro now
    by_cases hgate : now - s.lastRecalculation > 5000
    · exact iff_of_true (onPosition_deviation T s pos lng lat now route snapped d
        hlng hlat nlng nlat hmap hsrc hr hgate hn hd hdev).1 hgate
    · have h := (onPosition_gate_closed T s pos lng lat now hlng hlat nlng nlat hmap hgate).1
      exact iff_of_false (by rw [h]; simp) hgate
  · intro t r1 r2 r3 r4 ht hresp o1 o2 o3 o4
    obtain ⟨a1, m1, s1, g1, _, l1⟩ := onPositionResolved_deviation T s pos lng lat t route snapped d
      r1 hlng hlat nlng nlat hmap hsrc hr ht hn hd hdev (hresp r1 (by simp))
    obtain ⟨a2, m2, s2, g2, _, l2⟩ := onPositionResolved_gate_closed T o1.1 pos lng lat (t + 1000)
      r2 hlng hlat nlng nlat m1 (by rw [l1]; omega)
    obtain ⟨a3, m3, s3, g3, _, l3⟩ := onPositionResolved_gate_closed T o2.1 pos lng lat (t + 4000)
      r3 hlng hlat nlng nlat m2 (by rw [l2, l1]; omega)
    obtain ⟨a4, _⟩ := onPositionResolved_deviation T o3.1 pos lng lat (t + 6000) route snapped d
      r4 hlng hlat nlng nlat m3 (by rw [s3, s2]; exact s1) (by rw [g3, g2]; exact g1)
      (by rw [l3, l2, l1]; omega) hn hd hdev (hresp r4 (by simp))
    exact ⟨a1, a2, a3, a4⟩

/-- Instance of `deviation_time_gate`: on the sample session, whose
`lastRecalculation` is 0, a fix 60 away from the route at time 10000 is
dispatched, and of four such fixes at 10000, 11000, 14000 and 16000 with a
failing provider the first and the last are dispatched. -/
theorem deviation_time_gate_witness :
    sampleSession.routeGeoJSON = some [pt 0 0, pt 100 0] ∧
    sampleTurf.distance (JsNum.fin 0, JsNum.fin 60) (pt 0 0) = some (JsNum.fin 60) ∧
    (JsNum.fin 60).gt 50 = true ∧
    dispatched (onPosition sampleTurf sampleSession (fixAt 0 60 JsValue.null JsValue.null) 10000).2 = true ∧
    dispatched (onPositionResolved sampleTurf
      (onPositionResolved sampleTurf sampleSession (fixAt 0 60 JsValue.null JsValue.null) 10000
        ProviderResponse.failed).1
      (fixAt 0 60 JsValue.null JsValue.null) 11000 ProviderResponse.failed).2 = false := by
  have hd : sampleTurf.distance (JsNum.fin 0, JsNum.fin 60) (pt 0 0) = some (JsNum.fin 60) := by
    simp [sampleTurf, sampleDistance, pt]
  have hg : (JsNum.fin 60).gt 50 = true := by
    simp [JsNum.gt, JsNum.lt, JsNum.ofNat_eq_fin]
    norm_num
  have h := deviation_time_gate sampleTurf sampleSession (fixAt 0 60 JsValue.null JsValue.null)
    (JsNum.fin 0) (JsNum.fin 60) [pt 0 0, pt 100 0] { coordinates := pt 0 0, index := 0 }
    (JsNum.fin 60) rfl rfl rfl rfl rfl rfl rfl rfl hd hg
  refine ⟨rfl, hd, hg, (h.1 10000).2 (by decide), ?_⟩
  exact (h.2 10000 ProviderResponse.failed ProviderResponse.failed ProviderResponse.failed
    ProviderResponse.failed (by decide) (by simp)).2.1

/-- C4 fails as stated: on the sample route, a fix 60 away arrives exactly
5000 ms after `lastRecalculation`; at least 5000 ms have passed, and no route
request is dispatched. -/
theorem deviation_gate_counterexample :
    (sampleSessionAt 1000).routeGeoJSON = some [pt 0 0, pt 100 0] ∧
    sampleTurf.distance (JsNum.fin 0, JsNum.fin 60) (pt 0 0) = some (JsNum.fin 60) ∧
    (JsNum.fin 60).gt 50 = true ∧
    ¬ (dispatched (onPosition sampleTurf (sampleSessionAt 1000)
          (fixAt 0 60 JsValue.null JsValue.null) 6000).2 = true
        ↔ (6000 : Int) - (sampleSessionAt 1000).lastRecalculation ≥ 5000) := by
  have hd : sampleTurf.distance (JsNum.fin 0, JsNum.fin 60) (pt 0 0) = some (JsNum.fin 60) := by
    simp [sampleTurf, sampleDistance, pt]
  have hg : (JsNum.fin 60).gt 50 = true := by
    simp [JsNum.gt, JsNum.lt, JsNum.ofNat_eq_fin]
    norm_num
  have h := (onPosition_gate_closed sampleTurf (sampleSessionAt 1000)
    (fixAt 0 60 JsValue.null JsValue.null) (JsNum.fin 0) (JsNum.fin 60) 6000 rfl rfl rfl rfl rfl
    (by decide)).1
  refine ⟨rfl, hd, hg, ?_⟩
  rw [h]
  intro hiff
  have := hiff.2 (by decide)
  simp at this

/-! ### The route effect -/

/-- Every call of `fetchAndDrawRoute` is recorded, whatever the origin. -/
theorem callFetchAndDrawRoute_dispatched (ds : List Destination) (s : Session)
    (o : List JsValue) (k : Option Int) :
    dispatched (callFetchAndDrawRoute ds s o k).2 = true := by
  unfold callFetchAndDrawRoute fetchAndDrawRoute
  cases validPair o with
  | none => cases k <;> simp [dispatched, Effect.isRouteCall]
  | some c =>
    by_cases h1 : (c :: ds.filterMap Destination.validCoords).length < 2
    · by_cases h2 : (s.mapCurrent && s.routeSource.isSome) = true
      · simp only [h1, h2, if_true]
        cases k <;> simp [dispatched, Effect.isRouteCall]
      · simp only [h1, h2, if_true]
        cases k <;> simp [dispatched, Effect.isRouteCall]
    · simp only [h1, if_false]
      simp [dispatched, Effect.isRouteCall]

/-- A render whose destinations have a key other than the stored one, with a map,
an origin and at least one destination: `fetchAndDrawRoute` is called and the key
is stored. -/
theorem render_new_key (T : Turf) (stringify : List Destination → String) (s : Session)
    (o : List JsValue) (ds : List Destination)
    (hmap : s.mapCurrent = true) (hds : ds ≠ [])
    (hkey : s.routeDrawnForDestinations ≠ some (stringify ds)) :
    dispatched (step T stringify s (Event.render (some o) ds)).2 = true ∧
    (step T stringify s (Event.render (some o) ds)).1.routeDrawnForDestinations
      = some (stringify ds) ∧
    (step T stringify s (Event.render (some o) ds)).1.mapCurrent = true := by
  have hlen : (ds.length == 0) = false := by
    cases ds with
    | nil => exact absurd rfl hds
    | cons d ds => rfl
  simp only [step, routeEffect, hmap, hlen, hkey, Bool.not_true, Bool.or_self,
    Bool.false_eq_true, if_false]
  exact ⟨callFetchAndDrawRoute_dispatched _ _ _ _, trivial, by simp [hmap]⟩

/-- A render whose destinations have the stored key: only the props change and
nothing is emitted. -/
theorem render_same_key (T : Turf) (stringify : List Destination → String) (s : Session)
    (o : Option (List JsValue)) (ds : List Destination)
    (hkey : s.routeDrawnForDestinations = some (stringify ds)) :
    step T stringify s (Event.render o ds) = ({ s with origin := o, destinations := ds }, []) := by
  simp only [step, routeEffect, hkey]
  cases o with
  | none => rfl
  | some origin =>
    simp only [if_true]
    split <;> rfl

/-! ### What each event leaves unchanged -/

/-- The position handler never touches the map object, the props, the stored
key or the follow flag. -/
theorem onPosition_frame (T : Turf) (s : Session) (pos : Fix) (now : Int) :
    (onPosition T s pos now).1.mapCurrent = s.mapCurrent ∧
    (onPosition T s pos now).1.routeDrawnForDestinations = s.routeDrawnForDestinations ∧
    (onPosition T s pos now).1.shouldFollow = s.shouldFollow ∧
    (onPosition T s pos now).1.routeGeoJSON = s.routeGeoJSON ∧
    (onPosition T s pos now).1.origin = s.origin ∧
    (onPosition T s pos now).1.destinations = s.destinations := by
  unfold onPosition
  repeat' first | split | (dsimp only; split)
  all_goals simp

/-- The answer of the provider leaves the bearing state, the stored key, the
map object and the follow flag alone. -/
theorem onResolve_frame (s : Session) (i : Nat) (response : ProviderResponse) :
    (onResolve s i response).1.mapCurrent = s.mapCurrent ∧
    (onResolve s i response).1.routeDrawnForDestinations = s.routeDrawnForDestinations ∧
    (onResolve s i response).1.shouldFollow = s.shouldFollow ∧
    (onResolve s i response).1.lastKnownStableBearing = s.lastKnownStableBearing ∧
    (onResolve s i response).1.recenterClicked = s.recenterClicked := by
  unfold onResolve
  repeat' split
  all_goals simp

/-- The handler of the map event load leaves the bearing state, the stored key
and the map object alone. -/
theorem onLoad_frame (s : Session) :
    (onLoad s).1.mapCurrent = s.mapCurrent ∧
    (onLoad s).1.routeDrawnForDestinations = s.routeDrawnForDestinations ∧
    (onLoad s).1.shouldFollow = s.shouldFollow ∧
    (onLoad s).1.lastKnownStableBearing = s.lastKnownStableBearing ∧
    (onLoad s).1.recenterClicked = s.recenterClicked := by
  unfold onLoad
  repeat' first | split | (dsimp only; split)
  all_goals simp

/-- An event other than a render leaves the stored key as it is. -/
theorem step_routeDrawnForDestinations (T : Turf) (stringify : List Destination → String)
    (s : Session) (e : Event) (h : ∀ o ds, e ≠ Event.render o ds) :
    (step T stringify s e).1.routeDrawnForDestinations = s.routeDrawnForDestinations := by
  cases e with
  | render o ds => exact absurd rfl (h o ds)
  | load => exact (onLoad_frame s).2.1
  | position pos now => exact (onPosition_frame T s pos now).2.1
  | resolve i response => exact (onResolve_frame s i response).2.1
  | frame => simp only [step, animateMarker]; split <;> rfl
  | dragstart => rfl
  | zoomstart => rfl
  | recenterClick => simp only [step, handleRecenterClick]; (repeat' split) <;> rfl
  | recenterTimer => simp only [step, recenterTimeout]; split <;> rfl
  | geralClick => rfl

/-- No event changes whether the map object exists. -/
theorem step_mapCurrent (T : Turf) (stringify : List Destination → String)
    (s : Session) (e : Event) :
    (step T stringify s e).1.mapCurrent = s.mapCurrent := by
  cases e with
  | render o ds =>
    simp only [step, routeEffect]
    repeat' split
    all_goals simp
  | load => exact (onLoad_frame s).1
  | position pos now => exact (onPosition_frame T s pos now).1
  | resolve i response => exact (onResolve_frame s i response).1
  | frame => simp only [step, animateMarker]; split <;> rfl
  | dragstart => rfl
  | zoomstart => rfl
  | recenterClick => simp only [step, handleRecenterClick]; (repeat' split) <;> rfl
  | recenterTimer => simp only [step, recenterTimeout]; split <;> rfl
  | geralClick => rfl

/-- The stored key survives every sequence of events in which each render
carries destinations with that key. -/
theorem run_keeps_key (T : Turf) (stringify : List Destination → String) (key : String)
    (es : List Event) (s : Session)
    (hkey : s.routeDrawnForDestinations = some key)
    (hes : ∀ e ∈ es, ∀ o ds, e = Event.render o ds → stringify ds = key) :
    (run T stringify s es).1.routeDrawnForDestinations = some key := by
  induction es generalizing s with
  | nil => exact hkey
  | cons e es ih =>
    simp only [run]
    apply ih
    · by_cases hr : ∃ o ds, e = Event.render o ds
      · obtain ⟨o, ds, rfl⟩ := hr
        have hk := hes _ (List.mem_cons_self _ _) o ds rfl
        rw [render_same_key T stringify s o ds (by rw [hkey, hk])]
        exact hkey
      · rw [step_routeDrawnForDestinations T stringify s e
          (fun o ds h => hr ⟨o, ds, h⟩)]
        exact hkey
    · intro e1 he1
      exact hes e1 (List.mem_cons_of_mem _ he1)

/-- C5: a route request whose destinations have a new key (as in a fresh
session), with a map, an origin and a non-empty destination list, calls
`fetchAndDrawRoute`; after it, a request with the same origin and destinations
is skipped without any effect, however many fixes, answers, clicks and repeats
of the request came in between; and a request with a different key is
dispatched again. -/
theorem recalculation_dedup (T : Turf) (stringify : List Destination → String) (s : Session)
    (o : List JsValue) (ds : List Destination)
    (hmap : s.mapCurrent = true) (hds : ds ≠ [])
    (hkey : s.routeDrawnForDestinations ≠ some (stringify ds)) :
    dispatched (step T stringify s (Event.render (some o) ds)).2 = true ∧
    (∀ es : List Event,
      (∀ e ∈ es, ∀ o1 ds1, e = Event.render o1 ds1 → stringify ds1 = stringify ds) →
      step T stringify
          (run T stringify (step T stringify s (Event.render (some o) ds)).1 es).1
          (Event.render (some o) ds)
        = ({ (run T stringify (step T stringify s (Event.render (some o) ds)).1 es).1 with
              origin := some o, destinations := ds }, [])) ∧
    (∀ (o1 : List JsValue) (ds1 : List Destination), ds1 ≠ [] → stringify ds1 ≠ stringify ds →
      dispatched (step T stringify (step T stringify s (Event.render (some o) ds)).1
        (Event.render (some o1) ds1)).2 = true) := by
  obtain ⟨h1, h2, h3⟩ := render_new_key T stringify s o ds hmap hds hkey
  refine ⟨h1, ?_, ?_⟩
  · intro es hes
    exact render_same_key T stringify _ (some o) ds
      (run_keeps_key T stringify (stringify ds) es _ h2 hes)
  · intro o1 ds1 hds1 hne
    exact (render_new_key T stringify _ o1 ds1 h3 hds1
      (by rw [h2]; intro h; exact hne (Option.some.inj h).symm)).1

/-- Instance of `recalculation_dedup` in a fresh session: the first request is
dispatched, and the same request after a fix and a repeat is skipped. -/
theorem recalculation_dedup_witness :
    (Session.initial (some [JsValue.number 0, JsValue.number 0])
      [Destination.object (some [JsValue.number 100, JsValue.number 0]) "A"]).mapCurrent = true ∧
    dispatched (step sampleTurf sampleStringify
      (Session.initial (some [JsValue.number 0, JsValue.number 0])
        [Destination.object (some [JsValue.number 100, JsValue.number 0]) "A"])
      (Event.render (some [JsValue.number 0, JsValue.number 0])
        [Destination.object (some [JsValue.number 100, JsValue.number 0]) "A"])).2 = true ∧
    dispatched (step sampleTurf sampleStringify
      (run sampleTurf sampleStringify
        (step sampleTurf sampleStringify
          (Session.initial (some [JsValue.number 0, JsValue.number 0])
            [Destination.object (some [JsValue.number 100, JsValue.number 0]) "A"])
          (Event.render (some [JsValue.number 0, JsValue.number 0])
            [Destination.object (some [JsValue.number 100, JsValue.number 0]) "A"])).1
        [Event.position (fixAt 0 60 JsValue.null JsValue.null) 999999,
         Event.render (some [JsValue.number 0, JsValue.number 0])
          [Destination.object (some [JsValue.number 100, JsValue.number 0]) "A"]]).1
      (Event.render (some [JsValue.number 0, JsValue.number 0])
        [Destination.object (some [JsValue.number 100, JsValue.number 0]) "A"])).2 = false := by
  have h := recalculation_dedup sampleTurf sampleStringify
    (Session.initial (some [JsValue.number 0, JsValue.number 0])
      [Destination.object (some [JsValue.number 100, JsValue.number 0]) "A"])
    [JsValue.number 0, JsValue.number 0]
    [Destination.object (some [JsValue.number 100, JsValue.number 0]) "A"]
    rfl (by simp) (by simp [Session.initial])
  refine ⟨rfl, h.1, ?_⟩
  rw [h.2.1 _ (by
    intro e he o1 ds1 heq
    simp only [List.mem_cons, List.mem_singleton, List.not_mem_nil, or_false] at he
    rcases he with rfl | rfl
    · cases heq
    · cases heq; rfl)]
  rfl

/-- C6 (as amended): the dedup key is the serialization of the destinations
alone.  After a dispatched request for destinations `ds` the stored key is
`stringify ds`, and a request with the same destinations and any other origin
has the same key and is skipped: nothing is emitted and only the origin prop
changes. -/
theorem dedup_key_ignores_origin (T : Turf) (stringify : List Destination → String)
    (s : Session) (o : List JsValue) (o2 : Option (List JsValue)) (ds : List Destination)
    (hmap : s.mapCurrent = true) (hds : ds ≠ [])
    (hkey : s.routeDrawnForDestinations ≠ some (stringify ds)) :
    dispatched (step T stringify s (Event.render (some o) ds)).2 = true ∧
    (step T stringify s (Event.render (some o) ds)).1.routeDrawnForDestinations
      = some (stringify ds) ∧
    step T stringify (step T stringify s (Event.render (some o) ds)).1 (Event.render o2 ds)
      = ({ (step T stringify s (Event.render (some o) ds)).1 with
            origin := o2, destinations := ds }, []) ∧
    dispatched (step T stringify (step T stringify s (Event.render (some o) ds)).1
      (Event.render o2 ds)).2 = false := by
  obtain ⟨h1, h2, _⟩ := render_new_key T stringify s o ds hmap hds hkey
  have h := render_same_key T stringify (step T stringify s (Event.render (some o) ds)).1 o2 ds h2
  refine ⟨h1, h2, h, ?_⟩
  rw [h]
  rfl

/-- Instance of `dedup_key_ignores_origin` in a fresh session: the request from
(0, 0) is dispatched and the request from (1, 1) with the same destination emits
nothing. -/
theorem dedup_key_ignores_origin_witness :
    (step sampleTurf sampleStringify
      (step sampleTurf sampleStringify
        (Session.initial (some [JsValue.number 0, JsValue.number 0])
          [Destination.object (some [JsValue.number 100, JsValue.number 0]) "A"])
        (Event.render (some [JsValue.number 0, JsValue.number 0])
          [Destination.object (some [JsValue.number 100, JsValue.number 0]) "A"])).1
      (Event.render (some [JsValue.number 1, JsValue.number 1])
        [Destination.object (some [JsValue.number 100, JsValue.number 0]) "A"])).2 = [] := by
  have h := (dedup_key_ignores_origin sampleTurf sampleStringify
    (Session.initial (some [JsValue.number 0, JsValue.number 0])
      [Destination.object (some [JsValue.number 100, JsValue.number 0]) "A"])
    [JsValue.number 0, JsValue.number 0] (some [JsValue.number 1, JsValue.number 1])
    [Destination.object (some [JsValue.number 100, JsValue.number 0]) "A"]
    rfl (by simp) (by simp [Session.initial])).2.2.1
  rw [h]

/-- C6 fails as stated: in a fresh session the request from (0, 0) is dispatched;
the next request has the same destination and the different origin (1, 1), and
it is not dispatched. -/
theorem dedup_key_origin_counterexample :
    ([JsValue.number 1, JsValue.number 1] : List JsValue) ≠ [JsValue.number 0, JsValue.number 0] ∧
    dispatched (step sampleTurf sampleStringify
      (Session.initial (some [JsValue.number 0, JsValue.number 0])
        [Destination.object (some [JsValue.number 100, JsValue.number 0]) "A"])
      (Event.render (some [JsValue.number 0, JsValue.number 0])
        [Destination.object (some [JsValue.number 100, JsValue.number 0]) "A"])).2 = true ∧
    dispatched (step sampleTurf sampleStringify
      (step sampleTurf sampleStringify
        (Session.initial (some [JsValue.number 0, JsValue.number 0])
          [Destination.object (some [JsValue.number 100, JsValue.number 0]) "A"])
        (Event.render (some [JsValue.number 0, JsValue.number 0])
          [Destination.object (some [JsValue.number 100, JsValue.number 0]) "A"])).1
      (Event.render (some [JsValue.number 1, JsValue.number 1])
        [Destination.object (some [JsValue.number 100, JsValue.number 0]) "A"])).2 = false := by
  refine ⟨by decide, ?_, ?_⟩
  · exact (render_new_key sampleTurf sampleStringify _ _ _ rfl (by simp)
      (by simp [Session.initial])).1
  · rw [render_same_key sampleTurf sampleStringify _ _ _
      (render_new_key sampleTurf sampleStringify _ _ _ rfl (by simp)
        (by simp [Session.initial])).2.1]
    rfl

/-! ### Requests in flight -/

/-- With a valid origin and at least one valid destination the provider is
called: the request goes in flight and `lastRecalculation` is not yet written. -/
theorem callFetchAndDrawRoute_issued (ds : List Destination) (s : Session) (a b : JsNum)
    (k : Option Int) (hds : ds.filterMap Destination.validCoords ≠ []) :
    callFetchAndDrawRoute ds s [JsValue.number a, JsValue.number b] k
      = ({ s with inFlight := s.inFlight ++
            [{ waypoints := (a, b) :: ds.filterMap Destination.validCoords, thenRecalcAt := k }] },
         [Effect.fetchAndDrawRouteCalled [JsValue.number a, JsValue.number b],
          Effect.fetch ((a, b) :: ds.filterMap Destination.validCoords)]) := by
  unfold callFetchAndDrawRoute fetchAndDrawRoute
  simp only [validPair]
  have h1 : ¬ ((a, b) :: ds.filterMap Destination.validCoords).length < 2 := by
    cases hl : ds.filterMap Destination.validCoords with
    | nil => exact absurd hl hds
    | cons c cs => simp
  simp only [h1, if_false]

/-- The progress block adds at most one request, carrying the time of the fix. -/
theorem updateProgress_inFlight (T : Turf) (s : Session) (p : Coord) (now : Int) :
    (updateProgress T s p now).1.inFlight = s.inFlight ∨
    ∃ w, (updateProgress T s p now).1.inFlight
      = s.inFlight ++ [{ waypoints := w, thenRecalcAt := some now }] := by
  unfold updateProgress
  repeat' first | split | (dsimp only; split)
  all_goals first
    | exact Or.inl rfl
    | (rcases callFetchAndDrawRoute_valid _ _ _ _ _ with h | ⟨rs, effects, h, _, _⟩
       · rw [h]; exact Or.inr ⟨_, rfl⟩
       · rw [h]; exact Or.inl rfl)

/-- The position handler adds at most one request, carrying the time of the fix. -/
theorem onPosition_inFlight (T : Turf) (s : Session) (pos : Fix) (now : Int) :
    (onPosition T s pos now).1.inFlight = s.inFlight ∨
    ∃ w, (onPosition T s pos now).1.inFlight
      = s.inFlight ++ [{ waypoints := w, thenRecalcAt := some now }] := by
  unfold onPosition
  repeat' first | split | (dsimp only; split)
  all_goals first
    | exact Or.inl rfl
    | (rcases updateProgress_inFlight T _ _ now with h | ⟨w, h⟩
       · rw [h]; left; simp
       · rw [h]; right; exact ⟨w, by simp⟩)

/-- When the provider answers at once, the requests in flight after a fix are
those from before it. -/
theorem onPositionResolved_inFlight (T : Turf) (s : Session) (pos : Fix) (now : Int)
    (response : ProviderResponse) :
    (onPositionResolved T s pos now response).1.inFlight = s.inFlight := by
  unfold onPositionResolved
  dsimp only
  rcases onPosition_inFlight T s pos now with h | ⟨w, h⟩
  · rw [if_neg (by rw [h]; omega)]
    exact h
  · have hlen : (onPosition T s pos now).1.inFlight.length > s.inFlight.length := by
      rw [h]; simp
    have hidx : (onPosition T s pos now).1.inFlight.length - 1 = s.inFlight.length := by
      rw [h]; simp
    rw [if_pos hlen, hidx, onResolve_last _ s.inFlight w now response h]
    simp

/-- A call of `fetchAndDrawRoute` adds at most one request, carrying the
continuation of the caller. -/
theorem callFetchAndDrawRoute_inFlight (ds : List Destination) (s : Session) (o : List JsValue)
    (k : Option Int) :
    (callFetchAndDrawRoute ds s o k).1.inFlight = s.inFlight ∨
    ∃ w, (callFetchAndDrawRoute ds s o k).1.inFlight
      = s.inFlight ++ [{ waypoints := w, thenRecalcAt := k }] := by
  unfold callFetchAndDrawRoute fetchAndDrawRoute
  cases validPair o with
  | none => cases k <;> exact Or.inl rfl
  | some c =>
    by_cases h1 : (c :: ds.filterMap Destination.validCoords).length < 2
    · by_cases h2 : (s.mapCurrent && s.routeSource.isSome) = true
      · simp only [h1, h2, if_true]
        cases k <;> exact Or.inl rfl
      · simp only [h1, h2, if_true]
        cases k <;> exact Or.inl rfl
    · simp only [h1, if_false]
      exact Or.inr ⟨_, rfl⟩

/-- A request without a continuation does not count as a recalculation. -/
theorem recalculationsInFlight_append_none (s s1 : Session) (w : List Coord)
    (h : s1.inFlight = s.inFlight ++ [{ waypoints := w, thenRecalcAt := none }]) :
    recalculationsInFlight s1 = recalculationsInFlight s := by
  unfold recalculationsInFlight
  rw [h, List.filter_append]
  simp

/-- A request of the position handler counts as one recalculation. -/
theorem recalculationsInFlight_append_some (s s1 : Session) (w : List Coord) (now : Int)
    (h : s1.inFlight = s.inFlight ++ [{ waypoints := w, thenRecalcAt := some now }]) :
    recalculationsInFlight s1 = recalculationsInFlight s + 1 := by
  unfold recalculationsInFlight
  rw [h, List.filter_append]
  simp

/-- A fix adds at most one recalculation in flight. -/
theorem onPosition_recalculationsInFlight (T : Turf) (s : Session) (pos : Fix) (now : Int) :
    recalculationsInFlight (onPosition T s pos now).1 ≤ recalculationsInFlight s + 1 := by
  rcases onPosition_inFlight T s pos now with h | ⟨w, h⟩
  · unfold recalculationsInFlight
    rw [h]
    omega
  · rw [recalculationsInFlight_append_some s _ w now h]

/-- An event other than a fix adds no recalculation in flight. -/
theorem step_recalculationsInFlight (T : Turf) (stringify : List Destination → String)
    (s : Session) (e : Event) (h : ∀ pos now, e ≠ Event.position pos now) :
    recalculationsInFlight (step T stringify s e).1 ≤ recalculationsInFlight s := by
  have same : ∀ s1 : Session, s1.inFlight = s.inFlight →
      recalculationsInFlight s1 ≤ recalculationsInFlight s := by
    intro s1 h1
    unfold recalculationsInFlight
    rw [h1]
  have called : ∀ (ds : List Destination) (s0 : Session) (o : List JsValue) (s1 : Session),
      s1.inFlight = (callFetchAndDrawRoute ds s0 o none).1.inFlight →
      s0.inFlight = s.inFlight →
      recalculationsInFlight s1 ≤ recalculationsInFlight s := by
    intro ds s0 o s1 h1 h0
    rcases callFetchAndDrawRoute_inFlight ds s0 o none with hc | ⟨w, hc⟩
    · exact same s1 (by rw [h1, hc, h0])
    · rw [recalculationsInFlight_append_none s s1 w (by rw [h1, hc, h0])]
  cases e with
  | render o ds =>
    simp only [step, routeEffect]
    repeat' split
    all_goals first
      | exact same _ rfl
      | exact called _ _ _ _ rfl rfl
  | load =>
    simp only [step, onLoad]
    repeat' split
    all_goals first
      | exact same _ rfl
      | exact called _ _ _ _ rfl rfl
  | position pos now => exact absurd rfl (h pos now)
  | resolve i response =>
    have erased : ∀ s1 : Session, s1.inFlight = s.inFlight.eraseIdx i →
        recalculationsInFlight s1 ≤ recalculationsInFlight s := by
      intro s1 h1
      unfold recalculationsInFlight
      rw [h1]
      exact ((List.eraseIdx_sublist s.inFlight i).filter _).length_le
    simp only [step, onResolve]
    repeat' split
    all_goals first
      | exact same _ rfl
      | exact erased _ (by simp)
  | frame => exact same _ (by simp only [step, animateMarker]; split <;> rfl)
  | dragstart => exact same _ rfl
  | zoomstart => exact same _ rfl
  | recenterClick =>
    exact same _ (by simp only [step, handleRecenterClick]; (repeat' split) <;> rfl)
  | recenterTimer => exact same _ (by simp only [step, recenterTimeout]; split <;> rfl)
  | geralClick => exact same _ rfl

/-- C7 (as amended): the session keeps no in-flight guard, and the bound of one
recalculation in flight holds when the provider is prompt.  From a session with
at most one deviation recalculation in flight, along every sequence of events
(fixes, provider answers, renders, clicks, frames) in which each fix arrives
only after the earlier recalculations have been answered, every state reached
has at most one deviation recalculation in flight. -/
theorem single_in_flight_prompt_provider (T : Turf) (stringify : List Destination → String)
    (s : Session) (es : List Event)
    (h0 : recalculationsInFlight s ≤ 1) (hp : promptProvider T stringify s es) :
    ∀ reached : List Event, reached <+: es →
      recalculationsInFlight (run T stringify s reached).1 ≤ 1 := by
  induction es generalizing s with
  | nil =>
    intro reached hpre
    rw [List.prefix_nil.mp hpre]
    exact h0
  | cons e es ih =>
    intro reached hpre
    cases reached with
    | nil => exact h0
    | cons e1 reached1 =>
      obtain ⟨he, hpre1⟩ := List.cons_prefix_cons.mp hpre
      subst he
      obtain ⟨hfix, hrest⟩ := hp
      simp only [run]
      apply ih _ _ hrest reached1 hpre1
      by_cases hpos : ∃ pos now, e1 = Event.position pos now
      · obtain ⟨pos, now, rfl⟩ := hpos
        have hz := hfix pos now rfl
        have := onPosition_recalculationsInFlight T s pos now
        simp only [step]
        omega
      · have := step_recalculationsInFlight T stringify s e1 (fun pos now h => hpos ⟨pos, now, h⟩)
        omega

/-- A deviating fix with the gate open and a valid destination: the request goes
in flight, and `lastRecalculation` and the destinations are as before. -/
theorem onPosition_deviation_pending (T : Turf) (s : Session) (pos : Fix) (lng lat : JsNum)
    (now : Int) (route : List Coord) (snapped : NearestPoint) (d : JsNum)
    (hlng : pos.longitude = JsValue.number lng) (hlat : pos.latitude = JsValue.number lat)
    (nlng : lng.isNaN = false) (nlat : lat.isNaN = false)
    (hmap : s.mapCurrent = true) (hsrc : s.routeSource.isSome = true)
    (hr : s.routeGeoJSON = some route) (hgate : now - s.lastRecalculation > 5000)
    (hn : T.nearestPointOnLine route (lng, lat) = some snapped)
    (hd : T.distance (lng, lat) snapped.coordinates = some d) (hdev : d.gt 50 = true)
    (hds : s.destinations.filterMap Destination.validCoords ≠ []) :
    (onPosition T s pos now).1.inFlight
      = s.inFlight ++ [{ waypoints := (lng, lat) :: s.destinations.filterMap Destination.validCoords,
                         thenRecalcAt := some now }] ∧
    (onPosition T s pos now).1.lastRecalculation = s.lastRecalculation ∧
    (onPosition T s pos now).1.destinations = s.destinations ∧
    (onPosition T s pos now).1.mapCurrent = true ∧
    (onPosition T s pos now).1.routeSource.isSome = true ∧
    (onPosition T s pos now).1.routeGeoJSON = some route := by
  obtain ⟨s3, camera, heq, h1, h2, h3, h4, h5, h6, _, hc⟩ :=
    onPosition_progress T s pos lng lat now hlng hlat nlng nlat hmap
  obtain ⟨s2, hu, g1, g2, g3, g4, g5⟩ := updateProgress_deviation T s3 (lng, lat) now route snapped d
    (by rw [h3, hmap]) (by rw [h4, hsrc]) (by rw [h1, hr]) (by rw [h2]; exact hgate) hn hd hdev
  obtain ⟨_, m, src, rg, _⟩ := onPosition_deviation T s pos lng lat now route snapped d
    hlng hlat nlng nlat hmap hsrc hr hgate hn hd hdev
  refine ⟨?_, ?_, (onPosition_frame T s pos now).2.2.2.2.2, m, src, rg⟩
  · rw [heq, hu, callFetchAndDrawRoute_issued s3.destinations s2 lng lat (some now)
      (by rw [h5]; exact hds)]
    dsimp only
    rw [g4, h6, h5]
  · rw [heq, hu, callFetchAndDrawRoute_issued s3.destinations s2 lng lat (some now)
      (by rw [h5]; exact hds)]
    dsimp only
    rw [g5, h2]

/-- Instance of `single_in_flight_prompt_provider` on the sample session: a
deviating fix, the answer of the provider, and a second deviating fix. -/
theorem single_in_flight_prompt_provider_witness :
    recalculationsInFlight sampleSession ≤ 1 ∧
    promptProvider sampleTurf sampleStringify sampleSession
      [Event.position (fixAt 0 60 JsValue.null JsValue.null) 10000,
       Event.resolve 0 ProviderResponse.failed,
       Event.position (fixAt 0 60 JsValue.null JsValue.null) 16000] ∧
    recalculationsInFlight (run sampleTurf sampleStringify sampleSession
      [Event.position (fixAt 0 60 JsValue.null JsValue.null) 10000,
       Event.resolve 0 ProviderResponse.failed,
       Event.position (fixAt 0 60 JsValue.null JsValue.null) 16000]).1 ≤ 1 := by
  have hd : sampleTurf.distance (JsNum.fin 0, JsNum.fin 60) (pt 0 0) = some (JsNum.fin 60) := by
    simp [sampleTurf, sampleDistance, pt]
  have h0 : recalculationsInFlight sampleSession = 0 := rfl
  obtain ⟨a1, _⟩ := onPosition_deviation_pending sampleTurf sampleSession
    (fixAt 0 60 JsValue.null JsValue.null) (JsNum.fin 0) (JsNum.fin 60) 10000
    [pt 0 0, pt 100 0] { coordinates := pt 0 0, index := 0 } (JsNum.fin 60)
    rfl rfl rfl rfl rfl rfl rfl (by decide) rfl hd (by decide) (by decide)
  have hres := onResolve_last
    (onPosition sampleTurf sampleSession (fixAt 0 60 JsValue.null JsValue.null) 10000).1
    [] _ 10000 ProviderResponse.failed a1
  have hp : promptProvider sampleTurf sampleStringify sampleSession
      [Event.position (fixAt 0 60 JsValue.null JsValue.null) 10000,
       Event.resolve 0 ProviderResponse.failed,
       Event.position (fixAt 0 60 JsValue.null JsValue.null) 16000] := by
    refine ⟨fun _ _ _ => h0, ?_⟩
    refine ⟨fun _ _ h => Event.noConfusion h, ?_⟩
    refine ⟨fun _ _ _ => ?_, trivial⟩
    simp only [step]
    simp only [List.length_nil] at hres
    rw [hres]
    simp [recalculationsInFlight]
  exact ⟨by rw [h0]; omega, hp,
    single_in_flight_prompt_provider sampleTurf sampleStringify sampleSession _
      (by rw [h0]; omega) hp _ (List.prefix_refl _)⟩

/-- C7 fails as stated: on the sample session a deviating fix at time 10000
issues a request and leaves `lastRecalculation` at 0 while the provider has not
answered; a second deviating fix at time 16000 issues another one, and two
requests are in flight. -/
theorem single_in_flight_counterexample :
    (run sampleTurf sampleStringify sampleSession
      [Event.position (fixAt 0 60 JsValue.null JsValue.null) 10000]).1.lastRecalculation = 0 ∧
    recalculationsInFlight (run sampleTurf sampleStringify sampleSession
      [Event.position (fixAt 0 60 JsValue.null JsValue.null) 10000]).1 = 1 ∧
    recalculationsInFlight (run sampleTurf sampleStringify sampleSession
      [Event.position (fixAt 0 60 JsValue.null JsValue.null) 10000,
       Event.position (fixAt 0 60 JsValue.null JsValue.null) 16000]).1 = 2 := by
  have hd : sampleTurf.distance (JsNum.fin 0, JsNum.fin 60) (pt 0 0) = some (JsNum.fin 60) := by
    simp [sampleTurf, sampleDistance, pt]
  have hg : (JsNum.fin 60).gt 50 = true := by decide
  obtain ⟨a1, a2, a3, a4, a5, a6⟩ := onPosition_deviation_pending sampleTurf sampleSession
    (fixAt 0 60 JsValue.null JsValue.null) (JsNum.fin 0) (JsNum.fin 60) 10000
    [pt 0 0, pt 100 0] { coordinates := pt 0 0, index := 0 } (JsNum.fin 60)
    rfl rfl rfl rfl rfl rfl rfl (by decide) rfl hd hg (by decide)
  obtain ⟨b1, _⟩ := onPosition_deviation_pending sampleTurf
    (onPosition sampleTurf sampleSession (fixAt 0 60 JsValue.null JsValue.null) 10000).1
    (fixAt 0 60 JsValue.null JsValue.null) (JsNum.fin 0) (JsNum.fin 60) 16000
    [pt 0 0, pt 100 0] { coordinates := pt 0 0, index := 0 } (JsNum.fin 60)
    rfl rfl rfl rfl a4 a5 a6 (by rw [a2]; decide) rfl hd hg (by rw [a3]; decide)
  have c1 := recalculationsInFlight_append_some _ _ _ _ a1
  have c2 := recalculationsInFlight_append_some _ _ _ _ b1
  simp only [run, step, List.append_nil]
  refine ⟨a2, ?_, ?_⟩
  · rw [c1]; rfl
  · rw [c2, c1]; rfl

/-! ### The gate of the progress block -/

/-- A valid fix with the gate open, on a drawn route: the split is recomputed. -/
theorem onPosition_open_recomputed (T : Turf) (s : Session) (pos : Fix) (lng lat : JsNum)
    (now : Int) (route : List Coord) (snapped : NearestPoint) (d : JsNum)
    (hlng : pos.longitude = JsValue.number lng) (hlat : pos.latitude = JsValue.number lat)
    (nlng : lng.isNaN = false) (nlat : lat.isNaN = false)
    (hmap : s.mapCurrent = true) (hsrc : s.routeSource.isSome = true)
    (hr : s.routeGeoJSON = some route) (hgate : now - s.lastRecalculation > 5000)
    (hn : T.nearestPointOnLine route (lng, lat) = some snapped)
    (hd : T.distance (lng, lat) snapped.coordinates = some d) :
    progressRecomputed (onPosition T s pos now).2 = true := by
  obtain ⟨s3, camera, heq, h1, h2, h3, h4, _, _, _, hc⟩ :=
    onPosition_progress T s pos lng lat now hlng hlat nlng nlat hmap
  have hcam : ∀ e ∈ camera, ∃ c b t, e = Effect.easeTo c b t := fun e he => by
    obtain ⟨b, rfl⟩ := hc e he; exact ⟨_, _, _, rfl⟩
  obtain ⟨_, he⟩ := updateProgress_open T s3 (lng, lat) now route snapped d
    (by rw [h3, hmap]) (by rw [h4, hsrc]) (by rw [h1, hr]) (by rw [h2]; exact hgate) hn hd
  rw [heq]
  dsimp only
  rw [progressRecomputed_camera_append _ _ hcam]
  cases hl : (updateProgress T s3 (lng, lat) now).2 with
  | nil => rw [hl] at he; simp at he
  | cons e es =>
    rw [hl] at he
    simp only [List.head?_cons, Option.some.injEq] at he
    subst he
    simp [progressRecomputed]

/-- C8 (as amended): for a valid fix on a drawn active route the split is
recomputed exactly when more than 5000 ms have passed since `lastRecalculation`.
That time is not advanced by a fix within 50 m of the route, so two such fixes
recompute however close in time they are; after a fix more than 50 m from the
route whose request the provider answered at once, leaving the route as it is,
no fix within the next 5000 ms recomputes. -/
theorem progress_gate (T : Turf) (s : Session) (pos : Fix) (lng lat : JsNum)
    (route : List Coord) (snapped : NearestPoint) (d : JsNum)
    (hlng : pos.longitude = JsValue.number lng) (hlat : pos.latitude = JsValue.number lat)
    (nlng : lng.isNaN = false) (nlat : lat.isNaN = false)
    (hmap : s.mapCurrent = true) (hsrc : s.routeSource.isSome = true)
    (hr : s.routeGeoJSON = some route)
    (hn : T.nearestPointOnLine route (lng, lat) = some snapped)
    (hd : T.distance (lng, lat) snapped.coordinates = some d) :
    (∀ now : Int,
      progressRecomputed (onPosition T s pos now).2 = true ↔ now - s.lastRecalculation > 5000) ∧
    (d.gt 50 = false → ∀ now now2 : Int, now - s.lastRecalculation > 5000 → now ≤ now2 →
      (onPosition T s pos now).1.lastRecalculation = s.lastRecalculation ∧
      progressRecomputed (onPosition T s pos now).2 = true ∧
      progressRecomputed (onPosition T (onPosition T s pos now).1 pos now2).2 = true) ∧
    (d.gt 50 = true → ∀ (now now2 : Int) (response : ProviderResponse),
      (∀ c, response = ProviderResponse.route c → c = route) →
      now - s.lastRecalculation > 5000 → now2 - now ≤ 5000 →
      progressRecomputed
        (onPosition T (onPositionResolved T s pos now response).1 pos now2).2 = false) := by
  refine ⟨?_, ?_, ?_⟩
  · intro now
    by_cases hgate : now - s.lastRecalculation > 5000
    · exact iff_of_true (onPosition_open_recomputed T s pos lng lat now route snapped d
        hlng hlat nlng nlat hmap hsrc hr hgate hn hd) hgate
    · have h := (onPosition_gate_closed T s pos lng lat now hlng hlat nlng nlat hmap hgate).2.1
      exact iff_of_false (by rw [h]; simp) hgate
  · intro hdev now now2 hgate hle
    obtain ⟨_, a2, a3, a4, a5, _, a7⟩ := onPosition_onRoute T s pos lng lat now route snapped d
      hlng hlat nlng nlat hmap hsrc hr hgate hn hd hdev
    exact ⟨a7, a2, onPosition_open_recomputed T _ pos lng lat now2 route snapped d
      hlng hlat nlng nlat a3 a4 a5 (by rw [a7]; omega) hn hd⟩
  · intro hdev now now2 response hresp hgate hle
    obtain ⟨_, m, _, _, _, l⟩ := onPositionResolved_deviation T s pos lng lat now route snapped d
      response hlng hlat nlng nlat hmap hsrc hr hgate hn hd hdev hresp
    exact (onPosition_gate_closed T _ pos lng lat now2 hlng hlat nlng nlat m
      (by rw [l]; omega)).2.1

/-- Instance of `progress_gate` on the sample session: a fix 10 away from the
route at time 10000 recomputes the split, and so does the same fix at 11000. -/
theorem progress_gate_witness :
    sampleSession.routeGeoJSON = some [pt 0 0, pt 100 0] ∧
    sampleTurf.distance (JsNum.fin 0, JsNum.fin 10) (pt 0 0) = some (JsNum.fin 10) ∧
    (JsNum.fin 10).gt 50 = false ∧
    progressRecomputed
      (onPosition sampleTurf sampleSession (fixAt 0 10 JsValue.null JsValue.null) 10000).2 = true ∧
    progressRecomputed
      (onPosition sampleTurf
        (onPosition sampleTurf sampleSession (fixAt 0 10 JsValue.null JsValue.null) 10000).1
        (fixAt 0 10 JsValue.null JsValue.null) 11000).2 = true := by
  have hd : sampleTurf.distance (JsNum.fin 0, JsNum.fin 10) (pt 0 0) = some (JsNum.fin 10) := by
    simp [sampleTurf, sampleDistance, pt]
  have h := (progress_gate sampleTurf sampleSession (fixAt 0 10 JsValue.null JsValue.null)
    (JsNum.fin 0) (JsNum.fin 10) [pt 0 0, pt 100 0] { coordinates := pt 0 0, index := 0 }
    (JsNum.fin 10) rfl rfl rfl rfl rfl rfl rfl rfl hd).2.1 (by decide) 10000 11000
    (by decide) (by decide)
  exact ⟨rfl, hd, by decide, h.2.1, h.2.2⟩

/-- C8 fails as stated: on the sample session two fixes 10 away from the route
arrive 1000 ms apart, at 10000 and at 11000, and both recompute the split. -/
theorem progress_throttle_counterexample :
    (11000 : Int) - 10000 < 5000 ∧
    sampleTurf.distance (JsNum.fin 0, JsNum.fin 10) (pt 0 0) = some (JsNum.fin 10) ∧
    (JsNum.fin 10).le 50 = true ∧
    progressRecomputed
      (run sampleTurf sampleStringify sampleSession
        [Event.position (fixAt 0 10 JsValue.null JsValue.null) 10000]).2 = true ∧
    progressRecomputed
      (step sampleTurf sampleStringify
        (run sampleTurf sampleStringify sampleSession
          [Event.position (fixAt 0 10 JsValue.null JsValue.null) 10000]).1
        (Event.position (fixAt 0 10 JsValue.null JsValue.null) 11000)).2 = true := by
  have hd : sampleTurf.distance (JsNum.fin 0, JsNum.fin 10) (pt 0 0) = some (JsNum.fin 10) := by
    simp [sampleTurf, sampleDistance, pt]
  obtain ⟨_, a2, a3, a4, a5, _, a7⟩ := onPosition_onRoute sampleTurf sampleSession
    (fixAt 0 10 JsValue.null JsValue.null) (JsNum.fin 0) (JsNum.fin 10) 10000
    [pt 0 0, pt 100 0] { coordinates := pt 0 0, index := 0 } (JsNum.fin 10)
    rfl rfl rfl rfl rfl rfl rfl (by decide) rfl hd (by decide)
  have b := onPosition_open_recomputed sampleTurf
    (onPosition sampleTurf sampleSession (fixAt 0 10 JsValue.null JsValue.null) 10000).1
    (fixAt 0 10 JsValue.null JsValue.null) (JsNum.fin 0) (JsNum.fin 10) 11000
    [pt 0 0, pt 100 0] { coordinates := pt 0 0, index := 0 } (JsNum.fin 10)
    rfl rfl rfl rfl a3 a4 a5 (by rw [a7]; decide) rfl hd
  simp only [run, step, List.append_nil]
  exact ⟨by decide, hd, by decide, a2, b⟩

/-! ### The stable bearing -/

/-- Normalising a bearing of at least -360 degrees by `(r + 360) % 360` gives a
value in the range from 0 up to, not including, 360. -/
theorem normalize_isCompass (q : ℚ) (h1 : -360 ≤ q) :
    ((JsNum.fin q + 360) % 360 : JsNum).isCompass = true := by
  have e360 : (360 : JsNum) = JsNum.fin 360 := by
    rw [JsNum.ofNat_eq_fin]; norm_num
  rw [e360, JsNum.fin_add_fin]
  show (JsNum.rem (JsNum.fin (q + 360)) (JsNum.fin 360)).isCompass = true
  have hpos : (0 : ℚ) ≤ (q + 360) / 360 := by
    apply div_nonneg <;> linarith
  have hfl := Int.floor_le ((q + 360) / 360)
  have hlt := Int.lt_floor_add_one ((q + 360) / 360)
  have hne : (360 : ℚ) ≠ 0 := by norm_num
  simp only [JsNum.rem, hne, if_false, JsNum.truncQ, hpos, if_true, JsNum.isCompass,
    decide_eq_true_eq]
  constructor
  · have := (le_div_iff₀ (by norm_num : (0 : ℚ) < 360)).mp hfl
    linarith
  · have := (div_lt_iff₀ (by norm_num : (0 : ℚ) < 360)).mp hlt
    linarith

/-- A bearing from the route is a compass bearing when `turf.bearing` is in range. -/
theorem getBearingFromRoute_isCompass (T : Turf) (hT : T.bearingInRange) (p : Coord)
    (routeGeo : Option (List Coord)) (b : JsNum)
    (h : getBearingFromRoute T p routeGeo = some b) : b.isCompass = true := by
  unfold getBearingFromRoute at h
  repeat' first | split at h | (dsimp only at h; split at h)
  all_goals first
    | (rename_i r hb
       obtain ⟨q, rfl, h1, _⟩ := hT _ _ r hb
       simp only [Option.some.injEq] at h
       subst h
       exact normalize_isCompass q (by linarith))
    | simp at h

/-- The bearing block keeps the stable bearing a compass bearing when the device
heading is in range. -/
theorem estimateBearing_isCompass (T : Turf) (hT : T.bearingInRange) (s : Session) (p : Coord)
    (speed heading : JsValue) (hs : s.lastKnownStableBearing.isCompass = true)
    (hh : headingInRange heading = true) :
    (estimateBearing T s p speed heading).1.lastKnownStableBearing.isCompass = true := by
  have hfinal : ∀ x : JsNum,
      (match getBearingFromRoute T p s.routeGeoJSON with
        | some bearingFromRoute => bearingFromRoute
        | none =>
          if (heading.isNumber && !heading.numberIsNaN) = true then heading.toNumber
          else s.lastKnownStableBearing) = x →
      x.isCompass = true := by
    intro x hx
    cases hb : getBearingFromRoute T p s.routeGeoJSON with
    | some b =>
      rw [hb] at hx
      dsimp only at hx
      rw [← hx]
      exact getBearingFromRoute_isCompass T hT p _ b hb
    | none =>
      rw [hb] at hx
      dsimp only at hx
      cases heading with
      | number n =>
        cases hn : n.isNaN with
        | true =>
          simp only [JsValue.isNumber, JsValue.numberIsNaN, hn, Bool.not_true, Bool.and_false,
            Bool.false_eq_true, if_false] at hx
          rw [← hx]; exact hs
        | false =>
          simp only [JsValue.isNumber, JsValue.numberIsNaN, hn, Bool.not_false, Bool.and_self,
            if_true, JsValue.toNumber] at hx
          rw [← hx]
          simpa [headingInRange, hn] using hh
      | null =>
        simp only [JsValue.isNumber, Bool.false_and, Bool.false_eq_true, if_false] at hx
        rw [← hx]; exact hs
      | undefined =>
        simp only [JsValue.isNumber, Bool.false_and, Bool.false_eq_true, if_false] at hx
        rw [← hx]; exact hs
  unfold estimateBearing
  by_cases h1 : (s.recenterClicked && speed.toNumber.le speedThreshold) = true
  · rw [if_pos h1]; exact hs
  · rw [if_neg h1]
    by_cases h2 : speed.toNumber.gt speedThreshold = true
    · rw [if_pos h2]
      dsimp only
      generalize hx : (match getBearingFromRoute T p s.routeGeoJSON with
        | some bearingFromRoute => bearingFromRoute
        | none =>
          if (heading.isNumber && !heading.numberIsNaN) = true then heading.toNumber
          else s.lastKnownStableBearing) = x
      have hxc := hfinal x hx
      split
      · exact hxc
      · exact hs
    · rw [if_neg h2]; exact hs

/-- The position handler keeps the stable bearing a compass bearing when the
device heading is in range. -/
theorem onPosition_isCompass (T : Turf) (hT : T.bearingInRange) (s : Session) (pos : Fix)
    (now : Int) (hs : s.lastKnownStableBearing.isCompass = true)
    (hh : headingInRange pos.heading = true) :
    (onPosition T s pos now).1.lastKnownStableBearing.isCompass = true := by
  unfold onPosition
  repeat' first | split | (dsimp only; split)
  all_goals first
    | exact hs
    | (rw [updateProgress_lastKnownStableBearing]
       exact estimateBearing_isCompass T hT _ _ _ _ hs hh)

/-- An event other than a position fix leaves the stable bearing as it is. -/
theorem step_lastKnownStableBearing (T : Turf) (stringify : List Destination → String)
    (s : Session) (e : Event) (h : ∀ pos now, e ≠ Event.position pos now) :
    (step T stringify s e).1.lastKnownStableBearing = s.lastKnownStableBearing := by
  cases e with
  | render o ds =>
    simp only [step, routeEffect]
    repeat' split
    all_goals simp
  | load => exact (onLoad_frame s).2.2.2.1
  | position pos now => exact absurd rfl (h pos now)
  | resolve i response => exact (onResolve_frame s i response).2.2.2.1
  | frame => simp only [step, animateMarker]; split <;> rfl
  | dragstart => rfl
  | zoomstart => rfl
  | recenterClick => simp only [step, handleRecenterClick]; (repeat' split) <;> rfl
  | recenterTimer => simp only [step, recenterTimeout]; split <;> rfl
  | geralClick => rfl

/-- The stable bearing stays a compass bearing along every sequence of events
whose device headings are in range. -/
theorem run_isCompass (T : Turf) (hT : T.bearingInRange) (stringify : List Destination → String)
    (es : List Event) (s : Session) (hs : s.lastKnownStableBearing.isCompass = true)
    (hes : ∀ e ∈ es, ∀ pos now, e = Event.position pos now → headingInRange pos.heading = true) :
    (run T stringify s es).1.lastKnownStableBearing.isCompass = true := by
  induction es generalizing s with
  | nil => exact hs
  | cons e es ih =>
    simp only [run]
    apply ih
    · by_cases hp : ∃ pos now, e = Event.position pos now
      · obtain ⟨pos, now, rfl⟩ := hp
        exact onPosition_isCompass T hT s pos now hs (hes _ (List.mem_cons_self _ _) pos now rfl)
      · rw [step_lastKnownStableBearing T stringify s e (fun pos now h => hp ⟨pos, now, h⟩)]
        exact hs
    · intro e1 he1
      exact hes e1 (List.mem_cons_of_mem _ he1)

/-- C9 (as amended): when `turf.bearing` returns values between -180 and 180 and
every device heading that is a number other than NaN is at least 0 and less
than 360, then from the initial stable bearing 0, after any sequence of events
(fixes of any speed, provider answers with any route, recenter clicks, drags,
renders, animation frames) the stable bearing is a finite number at least 0 and
less than 360. -/
theorem stable_bearing_invariant (T : Turf) (stringify : List Destination → String)
    (origin : Option (List JsValue)) (destinations : List Destination) (es : List Event)
    (hT : T.bearingInRange)
    (hes : ∀ e ∈ es, ∀ pos now, e = Event.position pos now → headingInRange pos.heading = true) :
    ∃ q : ℚ,
      (run T stringify (Session.initial origin destinations) es).1.lastKnownStableBearing
        = JsNum.fin q ∧ 0 ≤ q ∧ q < 360 := by
  have h := run_isCompass T hT stringify es (Session.initial origin destinations)
    (by simp [Session.initial, JsNum.isCompass, JsNum.ofNat_eq_fin]) hes
  cases hb : (run T stringify (Session.initial origin destinations) es).1.lastKnownStableBearing with
  | fin q =>
    rw [hb] at h
    simp only [JsNum.isCompass, decide_eq_true_eq] at h
    exact ⟨q, rfl, h.1, h.2⟩
  | nan => rw [hb] at h; simp [JsNum.isCompass] at h
  | posInf => rw [hb] at h; simp [JsNum.isCompass] at h
  | negInf => rw [hb] at h; simp [JsNum.isCompass] at h

/-! ### The bearing block -/

/-- A number greater than another is not less than or equal to it. -/
theorem JsNum.le_eq_false_of_gt (a b : JsNum) (h : a.gt b = true) : a.le b = false := by
  cases a <;> cases b <;> simp_all [JsNum.gt, JsNum.lt, JsNum.le]

/-- The bearing block while a recenter is pending and the speed is at most the
threshold: north-up, and the session is left as it is. -/
theorem estimateBearing_slow (T : Turf) (s : Session) (p : Coord) (speed heading : JsValue)
    (hrc : s.recenterClicked = true) (hsp : speed.toNumber.le speedThreshold = true) :
    estimateBearing T s p speed heading = (s, 0) := by
  unfold estimateBearing
  rw [if_pos (by rw [hrc, hsp]; rfl)]

/-- The bearing block above the speed threshold: the recenter flag is cleared,
the bearing is taken from the route, else from the device, else it is the stable
bearing, and it becomes the stable bearing unless it is NaN. -/
theorem estimateBearing_fast (T : Turf) (s : Session) (p : Coord) (speed heading : JsValue)
    (hsp : speed.toNumber.gt speedThreshold = true) (x : JsNum)
    (hx : (match getBearingFromRoute T p s.routeGeoJSON with
        | some bearingFromRoute => bearingFromRoute
        | none =>
          if (heading.isNumber && !heading.numberIsNaN) = true then heading.toNumber
          else s.lastKnownStableBearing) = x) :
    (estimateBearing T s p speed heading).2 = x ∧
    (estimateBearing T s p speed heading).1.recenterClicked = false ∧
    (estimateBearing T s p speed heading).1.lastKnownStableBearing
      = (if x.isNaN then s.lastKnownStableBearing else x) := by
  unfold estimateBearing
  have hle := JsNum.le_eq_false_of_gt _ _ hsp
  rw [if_neg (by rw [hle]; simp), if_pos hsp]
  dsimp only
  rw [hx]
  cases hn : x.isNaN <;> simp

/-- The progress block emits no camera move. -/
theorem updateProgress_no_easeTo (T : Turf) (s : Session) (p : Coord) (now : Int) :
    ∀ e ∈ (updateProgress T s p now).2, e.isEaseTo = false := by
  unfold updateProgress
  repeat' first | split | (dsimp only; split)
  all_goals first
    | (intro e he
       simp only [List.mem_cons, List.mem_singleton, List.not_mem_nil, or_false] at he
       subst he
       rfl)
    | (intro e he; exact absurd he (List.not_mem_nil _))
    | (intro e he
       rcases callFetchAndDrawRoute_valid _ _ _ _ _ with h | ⟨rs, effects, h, hall, _⟩
       · rw [h] at he
         simp only [List.mem_cons, List.mem_singleton, List.not_mem_nil, or_false] at he
         rcases he with rfl | rfl | rfl <;> rfl
       · rw [h] at he
         simp only [List.mem_cons] at he
         rcases he with rfl | rfl | he
         · rfl
         · rfl
         · rw [hall e he]; rfl)

/-- The bearing block reads only the recenter flag, the stable bearing and the
route of the session. -/
theorem estimateBearing_congr (T : Turf) (s s2 : Session) (p : Coord) (speed heading : JsValue)
    (h1 : s2.recenterClicked = s.recenterClicked)
    (h2 : s2.lastKnownStableBearing = s.lastKnownStableBearing)
    (h3 : s2.routeGeoJSON = s.routeGeoJSON) :
    (estimateBearing T s2 p speed heading).2 = (estimateBearing T s p speed heading).2 ∧
    (estimateBearing T s2 p speed heading).1.recenterClicked
      = (estimateBearing T s p speed heading).1.recenterClicked ∧
    (estimateBearing T s2 p speed heading).1.lastKnownStableBearing
      = (estimateBearing T s p speed heading).1.lastKnownStableBearing := by
  by_cases c2 : speed.toNumber.gt speedThreshold = true
  · obtain ⟨a1, a2, a3⟩ := estimateBearing_fast T s p speed heading c2 _ rfl
    obtain ⟨b1, b2, b3⟩ := estimateBearing_fast T s2 p speed heading c2 _ rfl
    rw [a1, a2, a3, b1, b2, b3, h2, h3]
    exact ⟨rfl, rfl, rfl⟩
  · by_cases c1 : (s.recenterClicked && speed.toNumber.le speedThreshold) = true
    · have c1b : (s2.recenterClicked && speed.toNumber.le speedThreshold) = true := by
        rw [h1]; exact c1
      unfold estimateBearing
      rw [if_pos c1, if_pos c1b]
      exact ⟨rfl, h1, h2⟩
    · have c1b : ¬ (s2.recenterClicked && speed.toNumber.le speedThreshold) = true := by
        rw [h1]; exact c1
      unfold estimateBearing
      rw [if_neg c1, if_neg c1b, if_neg c2, if_neg c2]
      exact ⟨h2, h1, h2⟩

/-- A valid fix on a session with a map: the recenter flag and the stable bearing
after the handler are those after the bearing block, and the camera moves
emitted are exactly one move to the raw fix with `finalMapBearing` when
following, and none otherwise. -/
theorem onPosition_bearing (T : Turf) (s : Session) (pos : Fix) (lng lat : JsNum) (now : Int)
    (hlng : pos.longitude = JsValue.number lng) (hlat : pos.latitude = JsValue.number lat)
    (nlng : lng.isNaN = false) (nlat : lat.isNaN = false) (hmap : s.mapCurrent = true) :
    (onPosition T s pos now).1.recenterClicked
      = (estimateBearing T s (lng, lat) pos.speed pos.heading).1.recenterClicked ∧
    (onPosition T s pos now).1.lastKnownStableBearing
      = (estimateBearing T s (lng, lat) pos.speed pos.heading).1.lastKnownStableBearing ∧
    (s.shouldFollow = true →
      Effect.easeTo (lng, lat) (estimateBearing T s (lng, lat) pos.speed pos.heading).2 1000
        ∈ (onPosition T s pos now).2) ∧
    (∀ c b t, Effect.easeTo c b t ∈ (onPosition T s pos now).2 →
      s.shouldFollow = true ∧ c = (lng, lat) ∧
      b = (estimateBearing T s (lng, lat) pos.speed pos.heading).2 ∧ t = 1000) := by
  unfold onPosition
  simp only [hlng, hlat, nlng, nlat, hmap, Bool.or_self, Bool.false_eq_true, if_false,
    Bool.not_true, Bool.and_false]
  generalize hs2 : ({ s with
      currentPositionRef :=
        match s.currentPositionRef with
        | some current => some current
        | none => some { lng := lng, lat := lat }
      lastKnownPosition := some (lng, lat)
      targetPositionRef := some (snapTarget T s.routeGeoJSON (lng, lat))
      mapCurrent := true
      markerRef :=
        match s.markerRef with
        | some marker => some marker
        | none => some (lng, lat) } : Session) = s2
  have e1 : s2.recenterClicked = s.recenterClicked := by rw [← hs2]
  have e2 : s2.lastKnownStableBearing = s.lastKnownStableBearing := by rw [← hs2]
  have e3 : s2.routeGeoJSON = s.routeGeoJSON := by rw [← hs2]
  have e4 : s2.shouldFollow = s.shouldFollow := by rw [← hs2]
  have e5 : s2.mapCurrent = true := by rw [← hs2]
  obtain ⟨c1, c2, c3⟩ := estimateBearing_congr T s s2 (lng, lat) pos.speed pos.heading e1 e2 e3
  refine ⟨?_, ?_, ?_, ?_⟩
  · simp [c2]
  · simp [c3]
  · intro hf
    simp [hf, e4, e5, c1]
  · intro c b t hmem
    rw [List.mem_append] at hmem
    rcases hmem with hmem | hmem
    · cases hf : s.shouldFollow with
      | true =>
        simp only [estimateBearing_shouldFollow, estimateBearing_mapCurrent, hf, e4, e5,
          Bool.and_self, if_true, List.mem_singleton, Effect.easeTo.injEq, c1] at hmem
        exact ⟨rfl, hmem.1, hmem.2.1, hmem.2.2⟩
      | false =>
        simp [hf, e4] at hmem
    · have := updateProgress_no_easeTo T _ _ now _ hmem
      simp [Effect.isEaseTo] at this

/-- A finite speed is above the threshold exactly when it exceeds 1/2. -/
theorem speed_gt_threshold (q : ℚ) :
    (JsValue.number (JsNum.fin q)).toNumber.gt speedThreshold = decide (1 / 2 < q) := rfl

/-- A finite speed is at most the threshold exactly when it is at most 1/2. -/
theorem speed_le_threshold (q : ℚ) :
    (JsValue.number (JsNum.fin q)).toNumber.le speedThreshold = decide (q ≤ 1 / 2) := rfl

/-- The sample geometry returns bearings in range. -/
theorem sampleTurf_bearingInRange : sampleTurf.bearingInRange := by
  intro a b r h
  simp only [sampleTurf, Option.some.injEq] at h
  exact ⟨90, h.symm, by norm_num, by norm_num⟩

/-- Instance of `stable_bearing_invariant`: a fix at speed 1 with heading 45 in a
fresh session, followed by a recenter click. -/
theorem stable_bearing_invariant_witness :
    sampleTurf.bearingInRange ∧
    headingInRange (JsValue.number (JsNum.fin 45)) = true ∧
    ∃ q : ℚ,
      (run sampleTurf sampleStringify (Session.initial none [])
        [Event.position (fixAt 0 0 (JsValue.number (JsNum.fin 1)) (JsValue.number (JsNum.fin 45))) 10000,
         Event.recenterClick]).1.lastKnownStableBearing = JsNum.fin q ∧ 0 ≤ q ∧ q < 360 := by
  have hh : headingInRange (JsValue.number (JsNum.fin 45)) = true := by
    simp [headingInRange, JsNum.isCompass, JsNum.isNaN]
    norm_num
  refine ⟨sampleTurf_bearingInRange, hh, ?_⟩
  apply stable_bearing_invariant sampleTurf sampleStringify none [] _ sampleTurf_bearingInRange
  intro e he pos now heq
  simp only [List.mem_cons, List.mem_singleton, List.not_mem_nil, or_false] at he
  rcases he with rfl | rfl
  · cases heq
    exact hh
  · cases heq

/-- C9 fails as stated: in a fresh session without a route, a fix at speed 1
whose device heading is the number 400 makes 400 the stable bearing. -/
theorem stable_bearing_counterexample :
    (run sampleTurf sampleStringify (Session.initial none [])
      [Event.position (fixAt 0 0 (JsValue.number (JsNum.fin 1))
        (JsValue.number (JsNum.fin 400))) 10000]).1.lastKnownStableBearing = JsNum.fin 400 ∧
    ¬ ((0 : ℚ) ≤ 400 ∧ (400 : ℚ) < 360) := by
  constructor
  · simp only [run, step]
    obtain ⟨_, h2, _⟩ := onPosition_bearing sampleTurf (Session.initial none [])
      (fixAt 0 0 (JsValue.number (JsNum.fin 1)) (JsValue.number (JsNum.fin 400)))
      (JsNum.fin 0) (JsNum.fin 0) 10000 rfl rfl rfl rfl rfl
    obtain ⟨_, _, h3⟩ := estimateBearing_fast sampleTurf (Session.initial none [])
      (JsNum.fin 0, JsNum.fin 0) (JsValue.number (JsNum.fin 1)) (JsValue.number (JsNum.fin 400))
      (by rw [speed_gt_threshold]; norm_num) (JsNum.fin 400) rfl
    rw [h2]
    exact h3
  · norm_num

/-- C10: for a valid fix, (1) at a speed of at most 0.5 (0.5 included) while a
recenter is pending, every camera move emitted has bearing 0, one is emitted
when following, and the recenter flag stays set; (2) at a speed above 0.5 the
recenter flag is cleared and the bearing of every camera move emitted (one when
following) is the bearing from the route when there is one, otherwise the
device heading when it is a number other than NaN, otherwise the last stable
bearing, which is then left unchanged. -/
theorem bearing_speed_gate (T : Turf) (s : Session) (pos : Fix) (lng lat : JsNum) (now : Int)
    (hlng : pos.longitude = JsValue.number lng) (hlat : pos.latitude = JsValue.number lat)
    (nlng : lng.isNaN = false) (nlat : lat.isNaN = false) (hmap : s.mapCurrent = true) :
    (∀ q : ℚ, pos.speed = JsValue.number (JsNum.fin q) → q ≤ 1 / 2 → s.recenterClicked = true →
      (onPosition T s pos now).1.recenterClicked = true ∧
      (s.shouldFollow = true → Effect.easeTo (lng, lat) 0 1000 ∈ (onPosition T s pos now).2) ∧
      (∀ c b t, Effect.easeTo c b t ∈ (onPosition T s pos now).2 → b = 0)) ∧
    (∀ q : ℚ, pos.speed = JsValue.number (JsNum.fin q) → 1 / 2 < q →
      (onPosition T s pos now).1.recenterClicked = false ∧
      ∃ x : JsNum,
        (s.shouldFollow = true → Effect.easeTo (lng, lat) x 1000 ∈ (onPosition T s pos now).2) ∧
        (∀ c b t, Effect.easeTo c b t ∈ (onPosition T s pos now).2 → b = x) ∧
        (∀ b, getBearingFromRoute T (lng, lat) s.routeGeoJSON = some b → x = b) ∧
        (getBearingFromRoute T (lng, lat) s.routeGeoJSON = none →
          ∀ h, pos.heading = JsValue.number h → h.isNaN = false → x = h) ∧
        (getBearingFromRoute T (lng, lat) s.routeGeoJSON = none →
          (∀ h, pos.heading = JsValue.number h → h.isNaN = true) →
          x = s.lastKnownStableBearing ∧
          (onPosition T s pos now).1.lastKnownStableBearing = s.lastKnownStableBearing)) := by
  obtain ⟨b1, b2, b3, b4⟩ := onPosition_bearing T s pos lng lat now hlng hlat nlng nlat hmap
  constructor
  · intro q hq hle hrc
    have hs := estimateBearing_slow T s (lng, lat) pos.speed pos.heading hrc
      (by rw [hq, speed_le_threshold]; exact decide_eq_true hle)
    rw [hs] at b1 b3 b4
    exact ⟨by rw [b1]; exact hrc, b3, fun c b t hmem => (b4 c b t hmem).2.2.1⟩
  · intro q hq hlt
    obtain ⟨a1, a2, a3⟩ := estimateBearing_fast T s (lng, lat) pos.speed pos.heading
      (by rw [hq, speed_gt_threshold]; exact decide_eq_true hlt) _ rfl
    rw [a1] at b3 b4
    refine ⟨by rw [b1]; exact a2, _, b3, fun c b t hmem => (b4 c b t hmem).2.2.1, ?_, ?_, ?_⟩
    · intro b hb
      rw [hb]
    · intro hnone h hh hn
      rw [hnone, hh]
      simp [JsValue.isNumber, JsValue.numberIsNaN, JsValue.toNumber, hn]
    · intro hnone hall
      have hx : (match getBearingFromRoute T (lng, lat) s.routeGeoJSON with
          | some bearingFromRoute => bearingFromRoute
          | none =>
            if (pos.heading.isNumber && !pos.heading.numberIsNaN) = true then pos.heading.toNumber
            else s.lastKnownStableBearing) = s.lastKnownStableBearing := by
        rw [hnone]
        cases hh : pos.heading with
        | number h => simp [JsValue.isNumber, JsValue.numberIsNaN, hall h hh]
        | null => simp [JsValue.isNumber]
        | undefined => simp [JsValue.isNumber]
      refine ⟨hx, ?_⟩
      rw [b2, a3, hx]
      split <;> rfl

/-- Instance of `bearing_speed_gate`: on the sample session with a recenter
pending, a fix at speed exactly 1/2 moves the camera north-up and keeps the
flag; without the flag a fix at speed 1 moves it along the route, due east. -/
theorem bearing_speed_gate_witness :
    Effect.easeTo (JsNum.fin 0, JsNum.fin 0) 0 1000
      ∈ (onPosition sampleTurf { sampleSession with recenterClicked := true }
          (fixAt 0 0 (JsValue.number (JsNum.fin (1 / 2))) JsValue.null) 10000).2 ∧
    (onPosition sampleTurf { sampleSession with recenterClicked := true }
      (fixAt 0 0 (JsValue.number (JsNum.fin (1 / 2))) JsValue.null) 10000).1.recenterClicked = true ∧
    (onPosition sampleTurf { sampleSession with recenterClicked := true }
      (fixAt 0 0 (JsValue.number (JsNum.fin 1)) JsValue.null) 10000).1.recenterClicked = false := by
  have h := bearing_speed_gate sampleTurf { sampleSession with recenterClicked := true }
    (fixAt 0 0 (JsValue.number (JsNum.fin (1 / 2))) JsValue.null) (JsNum.fin 0) (JsNum.fin 0) 10000
    rfl rfl rfl rfl rfl
  have h2 := bearing_speed_gate sampleTurf { sampleSession with recenterClicked := true }
    (fixAt 0 0 (JsValue.number (JsNum.fin 1)) JsValue.null) (JsNum.fin 0) (JsNum.fin 0) 10000
    rfl rfl rfl rfl rfl
  obtain ⟨a1, a2, _⟩ := h.1 (1 / 2) rfl (le_refl _) rfl
  exact ⟨a2 rfl, a1, (h2.2 1 rfl (by norm_num)).1⟩

/-! ### Bearing normalisation -/

/-- The value of `(r + 360) % 360` for a raw bearing between -180 and 180: it is
`r + 360` reduced modulo 360, that is `r + 360` for negative `r` and `r` otherwise. -/
theorem normalize_fin (r : ℚ) (h1 : -180 ≤ r) (h2 : r ≤ 180) :
    ((JsNum.fin r + 360) % 360 : JsNum)
      = JsNum.fin ((r + 360) - 360 * ((⌊(r + 360) / 360⌋ : ℤ) : ℚ)) ∧
    (r + 360) - 360 * ((⌊(r + 360) / 360⌋ : ℤ) : ℚ) = (if r < 0 then r + 360 else r) := by
  have e360 : (360 : JsNum) = JsNum.fin 360 := by
    rw [JsNum.ofNat_eq_fin]; norm_num
  have hpos : (0 : ℚ) ≤ (r + 360) / 360 := by
    apply div_nonneg <;> linarith
  have hne : (360 : ℚ) ≠ 0 := by norm_num
  constructor
  · rw [e360, JsNum.fin_add_fin]
    show JsNum.rem (JsNum.fin (r + 360)) (JsNum.fin 360) = _
    simp only [JsNum.rem, hne, if_false, JsNum.truncQ, hpos, if_true]
  · by_cases hr : r < 0
    · have hf : ⌊(r + 360) / 360⌋ = 0 := by
        rw [Int.floor_eq_iff]
        constructor
        · simpa using hpos
        · rw [div_lt_iff₀ (by norm_num : (0 : ℚ) < 360)]
          norm_num
          linarith
      rw [hf, if_pos hr]
      simp
    · have hf : ⌊(r + 360) / 360⌋ = 1 := by
        rw [Int.floor_eq_iff]
        constructor
        · rw [le_div_iff₀ (by norm_num : (0 : ℚ) < 360)]
          norm_num
          linarith
        · rw [div_lt_iff₀ (by norm_num : (0 : ℚ) < 360)]
          norm_num
          linarith
      rw [hf, if_neg hr]
      simp

/-- A result of `getBearingFromRoute` other than `null` is the normalised value of a
bearing that `turf.bearing` returned from the snapped point to a coordinate of
the route. -/
theorem getBearingFromRoute_some (T : Turf) (p : Coord) (routeGeo : Option (List Coord))
    (b : JsNum) (h : getBearingFromRoute T p routeGeo = some b) :
    ∃ (coords : List Coord) (snapped : NearestPoint) (next : Coord) (raw : JsNum),
      routeGeo = some coords ∧ T.nearestPointOnLine coords p = some snapped ∧
      T.bearing snapped.coordinates next = some raw ∧ b = (raw + 360) % 360 := by
  unfold getBearingFromRoute at h
  repeat' first | split at h | (dsimp only at h; split at h)
  all_goals first
    | (rename_i coords _ _ snapped hn _ next _ _ raw hb
       simp only [Option.some.injEq] at h
       exact ⟨coords, snapped, next, raw, rfl, hn, hb, h.symm⟩)
    | simp at h

/-- C11: a result of `getBearingFromRoute` other than `null` is `(raw + 360) % 360`
for the raw bearing `raw` that `turf.bearing` gave from the snapped point to the
lookahead coordinate; and for every raw bearing `r` between -180 and 180 that
result is `(r + 360) mod 360`, which is `r + 360` for negative `r` and `r`
otherwise, and lies in the range from 0 up to, not including, 360. -/
theorem bearing_normalization (T : Turf) (p : Coord) (routeGeo : Option (List Coord))
    (b : JsNum) (h : getBearingFromRoute T p routeGeo = some b) :
    ∃ (snapped next : Coord) (raw : JsNum),
      T.bearing snapped next = some raw ∧ b = (raw + 360) % 360 ∧
      ∀ r : ℚ, raw = JsNum.fin r → -180 ≤ r → r ≤ 180 →
        ∃ q : ℚ, b = JsNum.fin q ∧
          q = (r + 360) - 360 * ((⌊(r + 360) / 360⌋ : ℤ) : ℚ) ∧
          q = (if r < 0 then r + 360 else r) ∧ 0 ≤ q ∧ q < 360 := by
  obtain ⟨coords, snapped, next, raw, _, _, hb, hres⟩ := getBearingFromRoute_some T p routeGeo b h
  refine ⟨snapped.coordinates, next, raw, hb, hres, ?_⟩
  intro r hr h1 h2
  obtain ⟨e1, e2⟩ := normalize_fin r h1 h2
  refine ⟨(r + 360) - 360 * ((⌊(r + 360) / 360⌋ : ℤ) : ℚ), ?_, rfl, e2, ?_, ?_⟩
  · rw [hres, hr, e1]
  · rw [e2]; split <;> linarith
  · rw [e2]; split <;> linarith

/-- Instance of `bearing_normalization`: with the sample geometry whose bearings
are -90, the bearing from the sample route is 270. -/
theorem bearing_normalization_witness :
    getBearingFromRoute sampleTurfWest (pt 50 0) (some [pt 0 0, pt 100 0])
      = some ((JsNum.fin (-90) + 360) % 360) ∧
    ((JsNum.fin (-90) + 360) % 360 : JsNum) = JsNum.fin 270 := by
  have hget : getBearingFromRoute sampleTurfWest (pt 50 0) (some [pt 0 0, pt 100 0])
      = some ((JsNum.fin (-90) + 360) % 360) := rfl
  obtain ⟨snapped, next, raw, hb, _, hall⟩ := bearing_normalization sampleTurfWest (pt 50 0)
    (some [pt 0 0, pt 100 0]) _ hget
  have hraw : raw = JsNum.fin (-90) := by
    simp only [sampleTurfWest, Option.some.injEq] at hb
    exact hb.symm
  obtain ⟨q, hq, _, hq2, _, _⟩ := hall (-90) hraw (by norm_num) (by norm_num)
  refine ⟨hget, ?_⟩
  rw [hq, hq2]
  norm_num

/-! ### Provider failures -/

/-- A call of `fetchAndDrawRoute` neither creates nor removes the route source. -/
theorem callFetchAndDrawRoute_routeSource_isSome (ds : List Destination) (s : Session)
    (o : List JsValue) (k : Option Int) :
    (callFetchAndDrawRoute ds s o k).1.routeSource.isSome = s.routeSource.isSome := by
  unfold callFetchAndDrawRoute fetchAndDrawRoute
  cases validPair o with
  | none => cases k <;> rfl
  | some c =>
    by_cases h1 : (c :: ds.filterMap Destination.validCoords).length < 2
    · by_cases h2 : (s.mapCurrent && s.routeSource.isSome) = true
      · have h3 : s.routeSource.isSome = true := by
          rw [Bool.and_eq_true] at h2; exact h2.2
        simp only [h1, h2, if_true]
        cases k <;> simp [h3]
      · simp only [h1, h2, if_true]
        cases k <;> rfl
    · simp only [h1, if_false]

/-- The progress block neither creates nor removes the route source. -/
theorem updateProgress_routeSource_isSome (T : Turf) (s : Session) (p : Coord) (now : Int) :
    (updateProgress T s p now).1.routeSource.isSome = s.routeSource.isSome := by
  unfold updateProgress
  repeat' first | split | (dsimp only; split)
  all_goals first
    | rfl
    | (rename_i h
       dsimp only
       rw [callFetchAndDrawRoute_routeSource_isSome]
       rw [Bool.and_eq_true] at h
       exact h.2.symm)
    | (rename_i h
       rw [Bool.and_eq_true] at h
       exact h.2.symm)

/-- The answer of the provider keeps the drawn route matching the stored one. -/
theorem fetchAndDrawRouteResume_drawnConsistent (s : Session) (response : ProviderResponse)
    (h : s.drawnConsistent) : (fetchAndDrawRouteResume s response).1.drawnConsistent := by
  obtain ⟨hmap, hsrc⟩ := h
  cases response with
  | failed => exact ⟨hmap, hsrc⟩
  | notOk => exact ⟨hmap, hsrc⟩
  | noRoutes =>
    by_cases hc : (s.mapCurrent && s.routeSource.isSome) = true
    · simp only [fetchAndDrawRouteResume, hc, if_true]
      rw [Bool.and_eq_true] at hc
      exact ⟨hmap, by rw [← hsrc, hc.2]; rfl⟩
    · simp only [fetchAndDrawRouteResume, hc, if_false]
      exact ⟨hmap, hsrc⟩
  | route coordinates =>
    simp only [fetchAndDrawRouteResume, hmap, Bool.not_true, Bool.false_eq_true, if_false]
    split <;> exact ⟨rfl, rfl⟩

/-- The position handler neither creates nor removes the route source. -/
theorem onPosition_routeSource_isSome (T : Turf) (s : Session) (pos : Fix) (now : Int) :
    (onPosition T s pos now).1.routeSource.isSome = s.routeSource.isSome := by
  unfold onPosition
  repeat' first | split | (dsimp only; split)
  all_goals first
    | rfl
    | (rw [updateProgress_routeSource_isSome]; simp)

/-- Every event keeps the drawn route matching the stored one. -/
theorem step_drawnConsistent (T : Turf) (stringify : List Destination → String)
    (s : Session) (e : Event) (h : s.drawnConsistent) :
    (step T stringify s e).1.drawnConsistent := by
  have hmap := step_mapCurrent T stringify s e
  obtain ⟨hm, hsrc⟩ := h
  refine ⟨by rw [hmap]; exact hm, ?_⟩
  cases e with
  | render o ds =>
    simp only [step, routeEffect]
    repeat' split
    all_goals first
      | exact hsrc
      | (dsimp only
         rw [callFetchAndDrawRoute_routeSource_isSome, callFetchAndDrawRoute_routeGeoJSON]
         exact hsrc)
  | load =>
    simp only [step, onLoad]
    repeat' split
    all_goals first
      | exact hsrc
      | (dsimp only
         rw [callFetchAndDrawRoute_routeSource_isSome, callFetchAndDrawRoute_routeGeoJSON]
         exact hsrc)
  | position pos now =>
    simp only [step]
    rw [onPosition_routeSource_isSome, (onPosition_frame T s pos now).2.2.2.1]
    exact hsrc
  | resolve i response =>
    simp only [step, onResolve]
    have key := fetchAndDrawRouteResume_drawnConsistent
      { s with inFlight := s.inFlight.eraseIdx i } response ⟨hm, hsrc⟩
    repeat' split
    all_goals first
      | exact hsrc
      | exact key.2
  | frame => simp only [step, animateMarker]; split <;> exact hsrc
  | dragstart => exact hsrc
  | zoomstart => exact hsrc
  | recenterClick => simp only [step, handleRecenterClick]; (repeat' split) <;> exact hsrc
  | recenterTimer => simp only [step, recenterTimeout]; split <;> exact hsrc
  | geralClick => exact hsrc

/-- In every session reached from a mount, the drawn route matches the stored one. -/
theorem run_drawnConsistent (T : Turf) (stringify : List Destination → String)
    (es : List Event) (s : Session) (h : s.drawnConsistent) :
    (run T stringify s es).1.drawnConsistent := by
  induction es generalizing s with
  | nil => exact h
  | cons e es ih =>
    simp only [run]
    exact ih _ (step_drawnConsistent T stringify s e h)

/-- C12 (as amended): in a session reached from a mount, a failed or non-success
provider response leaves the stored route and the drawn layers as they were; a
response without routes leaves the stored route unchanged, sets the drawn route
source to an empty feature collection when a previous route exists, and does
nothing when none exists. -/
theorem provider_failure_handling (T : Turf) (stringify : List Destination → String)
    (origin : Option (List JsValue)) (destinations : List Destination) (es : List Event)
    (s : Session) (hs : s = (run T stringify (Session.initial origin destinations) es).1) :
    fetchAndDrawRouteResume s ProviderResponse.failed = (s, []) ∧
    fetchAndDrawRouteResume s ProviderResponse.notOk = (s, []) ∧
    (fetchAndDrawRouteResume s ProviderResponse.noRoutes).1.routeGeoJSON = s.routeGeoJSON ∧
    (s.routeGeoJSON.isSome = true →
      (fetchAndDrawRouteResume s ProviderResponse.noRoutes).1.routeSource = some [] ∧
      (fetchAndDrawRouteResume s ProviderResponse.noRoutes).2 = [Effect.setData []]) ∧
    (s.routeGeoJSON = none →
      fetchAndDrawRouteResume s ProviderResponse.noRoutes = (s, [])) := by
  have hc : s.drawnConsistent := by
    rw [hs]
    exact run_drawnConsistent T stringify es _ ⟨rfl, rfl⟩
  obtain ⟨hmap, hsrc⟩ := hc
  refine ⟨rfl, rfl, ?_, ?_, ?_⟩
  · simp only [fetchAndDrawRouteResume]
    split <;> rfl
  · intro hsome
    have hcond : (s.mapCurrent && s.routeSource.isSome) = true := by
      rw [hmap, hsrc, hsome]; rfl
    simp only [fetchAndDrawRouteResume, hcond, if_true]
    exact ⟨trivial, trivial⟩
  · intro hnone
    have hcond : ¬ (s.mapCurrent && s.routeSource.isSome) = true := by
      rw [hmap, hsrc, hnone]; simp
    unfold fetchAndDrawRouteResume
    exact if_neg hcond

/-- Instance of `provider_failure_handling`: once the sample route is stored and
drawn, a response without routes empties the drawn source and keeps the stored
route. -/
theorem provider_failure_handling_witness :
    (run sampleTurf sampleStringify
      (Session.initial (some sampleOrigin) (sampleDestinations "A")) sampleRouteDrawn).1.routeGeoJSON
      = some [pt 0 0, pt 100 0] ∧
    (fetchAndDrawRouteResume
      (run sampleTurf sampleStringify
        (Session.initial (some sampleOrigin) (sampleDestinations "A")) sampleRouteDrawn).1
      ProviderResponse.noRoutes).1.routeSource = some [] ∧
    (fetchAndDrawRouteResume
      (run sampleTurf sampleStringify
        (Session.initial (some sampleOrigin) (sampleDestinations "A")) sampleRouteDrawn).1
      ProviderResponse.noRoutes).1.routeGeoJSON = some [pt 0 0, pt 100 0] := by
  have h := provider_failure_handling sampleTurf sampleStringify (some sampleOrigin)
    (sampleDestinations "A") sampleRouteDrawn _ rfl
  exact ⟨rfl, (h.2.2.2.1 rfl).1, h.2.2.1⟩

/-- C12 fails as stated: the sample route is stored and drawn in blue; a second
request, for a new destination list, is answered without routes; the stored
route is still there, and the drawn source is now empty instead of left as it
was. -/
theorem provider_failure_counterexample :
    (run sampleTurf sampleStringify
      (Session.initial (some sampleOrigin) (sampleDestinations "A")) sampleRouteDrawn).1.routeSource
      = some [{ color := Color.blue, coordinates := [pt 0 0, pt 100 0] }] ∧
    (run sampleTurf sampleStringify
      (Session.initial (some sampleOrigin) (sampleDestinations "A"))
      (sampleRouteDrawn ++
        [Event.render (some sampleOrigin) (sampleDestinations "B"),
         Event.resolve 0 ProviderResponse.noRoutes])).1.routeGeoJSON
      = some [pt 0 0, pt 100 0] ∧
    (run sampleTurf sampleStringify
      (Session.initial (some sampleOrigin) (sampleDestinations "A"))
      (sampleRouteDrawn ++
        [Event.render (some sampleOrigin) (sampleDestinations "B"),
         Event.resolve 0 ProviderResponse.noRoutes])).1.routeSource
      = some [] := by
  refine ⟨by decide, by decide, by decide⟩

/-! ### Rejected fixes -/

/-- For a fix with numeric, non-NaN coordinates the handler stores the fix as the
last known position and sets the current position if there was none. -/
theorem onPosition_lastKnownPosition (T : Turf) (s : Session) (pos : Fix) (lng lat : JsNum)
    (now : Int) (hlng : pos.longitude = JsValue.number lng) (hlat : pos.latitude = JsValue.number lat)
    (nlng : lng.isNaN = false) (nlat : lat.isNaN = false) :
    (onPosition T s pos now).1.lastKnownPosition = some (lng, lat) ∧
    (onPosition T s pos now).1.currentPositionRef
      = (match s.currentPositionRef with
         | some current => some current
         | none => some { lng := lng, lat := lat }) := by
  unfold onPosition
  simp only [hlng, hlat, nlng, nlat, Bool.or_self, Bool.false_eq_true, if_false]
  split <;> simp

/-- C13 (as amended): a fix whose longitude or latitude is not a number or is NaN
is dropped: the handler returns the session unchanged and emits nothing.  A fix
whose coordinates are numbers other than NaN, the infinities included, is not
dropped: it becomes the last known position. -/
theorem invalid_fix_rejection (T : Turf) (s : Session) (pos : Fix) (now : Int) :
    (pos.longitude.isNumber = false ∨ pos.latitude.isNumber = false ∨
        pos.longitude.globalIsNaN = true ∨ pos.latitude.globalIsNaN = true →
      onPosition T s pos now = (s, [])) ∧
    (∀ lng lat : JsNum, pos.longitude = JsValue.number lng → pos.latitude = JsValue.number lat →
      lng.isNaN = false → lat.isNaN = false →
      (onPosition T s pos now).1.lastKnownPosition = some (lng, lat)) := by
  constructor
  · intro h
    obtain ⟨lo, la, sp, hd⟩ := pos
    cases lo with
    | number n =>
      cases la with
      | number m =>
        have hc : (n.isNaN || m.isNaN) = true := by
          simp only [JsValue.isNumber, JsValue.globalIsNaN, JsValue.toNumber, Bool.true_eq_false,
            false_or] at h
          rcases h with h | h <;> simp [h]
        simp only [onPosition, hc, if_true]
      | null => rfl
      | undefined => rfl
    | null => rfl
    | undefined => rfl
  · intro lng lat hlng hlat nlng nlat
    exact (onPosition_lastKnownPosition T s pos lng lat now hlng hlat nlng nlat).1

/-- Instance of `invalid_fix_rejection`: a fix with longitude NaN and a fix with
latitude `null` leave the sample session as it is. -/
theorem invalid_fix_rejection_witness :
    onPosition sampleTurf sampleSession
      { longitude := JsValue.number JsNum.nan, latitude := JsValue.number (JsNum.fin 0),
        speed := JsValue.null, heading := JsValue.null } 10000 = (sampleSession, []) ∧
    onPosition sampleTurf sampleSession
      { longitude := JsValue.number (JsNum.fin 0), latitude := JsValue.null,
        speed := JsValue.null, heading := JsValue.null } 10000 = (sampleSession, []) := by
  constructor
  · exact (invalid_fix_rejection sampleTurf sampleSession _ 10000).1 (Or.inr (Or.inr (Or.inl rfl)))
  · exact (invalid_fix_rejection sampleTurf sampleSession _ 10000).1 (Or.inr (Or.inl rfl))

/-- C13 fails as stated: in a fresh session a fix with longitude +Infinity is
processed: it becomes the last known and the current position, and a camera
move to it is emitted. -/
theorem invalid_fix_counterexample :
    (Session.initial none []).lastKnownPosition = none ∧
    (Session.initial none []).currentPositionRef = none ∧
    (onPosition sampleTurf (Session.initial none [])
      { longitude := JsValue.number JsNum.posInf, latitude := JsValue.number (JsNum.fin 0),
        speed := JsValue.null, heading := JsValue.null } 10000).1.lastKnownPosition
      = some (JsNum.posInf, JsNum.fin 0) ∧
    (onPosition sampleTurf (Session.initial none [])
      { longitude := JsValue.number JsNum.posInf, latitude := JsValue.number (JsNum.fin 0),
        speed := JsValue.null, heading := JsValue.null } 10000).1.currentPositionRef
      = some { lng := JsNum.posInf, lat := JsNum.fin 0 } ∧
    ∃ bearing, Effect.easeTo (JsNum.posInf, JsNum.fin 0) bearing 1000
      ∈ (onPosition sampleTurf (Session.initial none [])
          { longitude := JsValue.number JsNum.posInf, latitude := JsValue.number (JsNum.fin 0),
            speed := JsValue.null, heading := JsValue.null } 10000).2 := by
  obtain ⟨h1, h2⟩ := onPosition_lastKnownPosition sampleTurf (Session.initial none [])
    { longitude := JsValue.number JsNum.posInf, latitude := JsValue.number (JsNum.fin 0),
      speed := JsValue.null, heading := JsValue.null } JsNum.posInf (JsNum.fin 0) 10000
    rfl rfl rfl rfl
  obtain ⟨_, _, h3, _⟩ := onPosition_bearing sampleTurf (Session.initial none [])
    { longitude := JsValue.number JsNum.posInf, latitude := JsValue.number (JsNum.fin 0),
      speed := JsValue.null, heading := JsValue.null } JsNum.posInf (JsNum.fin 0) 10000
    rfl rfl rfl rfl rfl
  exact ⟨rfl, rfl, h1, h2, _, h3 rfl⟩

/-! ### Camera follow and free look -/

/-- While the follow flag is off, the position handler emits no camera move,
whatever the fix. -/
theorem onPosition_freeLook (T : Turf) (s : Session) (pos : Fix) (now : Int)
    (hf : s.shouldFollow = false) :
    ∀ e ∈ (onPosition T s pos now).2, e.isEaseTo = false := by
  unfold onPosition
  split
  · split
    · intro e he; exact absurd he (List.not_mem_nil _)
    · dsimp only
      split
      · intro e he
        simp only [List.mem_singleton] at he
        subst he
        rfl
      · intro e he
        simp only [estimateBearing_shouldFollow, hf, Bool.false_and, Bool.false_eq_true,
          if_false, List.nil_append] at he
        exact updateProgress_no_easeTo T _ _ now e he
  · intro e he; exact absurd he (List.not_mem_nil _)

/-- Only the timer of the recenter button switches following back on. -/
theorem step_freeLook (T : Turf) (stringify : List Destination → String)
    (s : Session) (e : Event) (hf : s.shouldFollow = false) (he : e ≠ Event.recenterTimer) :
    (step T stringify s e).1.shouldFollow = false := by
  cases e with
  | render o ds =>
    simp only [step, routeEffect]
    repeat' split
    all_goals simp [hf]
  | load => exact (onLoad_frame s).2.2.1.trans hf
  | position pos now => exact (onPosition_frame T s pos now).2.2.1.trans hf
  | resolve i response => exact (onResolve_frame s i response).2.2.1.trans hf
  | frame => simp only [step, animateMarker]; split <;> exact hf
  | dragstart => rfl
  | zoomstart => rfl
  | recenterClick => simp only [step, handleRecenterClick]; (repeat' split) <;> exact hf
  | recenterTimer => exact absurd rfl he
  | geralClick => rfl

/-- The follow flag stays off along every sequence of events in which the timer
of the recenter button does not fire. -/
theorem run_freeLook (T : Turf) (stringify : List Destination → String)
    (es : List Event) (s : Session) (hf : s.shouldFollow = false)
    (hes : ∀ e ∈ es, e ≠ Event.recenterTimer) :
    (run T stringify s es).1.shouldFollow = false := by
  induction es generalizing s with
  | nil => exact hf
  | cons e es ih =>
    simp only [run]
    exact ih _ (step_freeLook T stringify s e hf (hes e (List.mem_cons_self _ _)))
      (fun e1 he1 => hes e1 (List.mem_cons_of_mem _ he1))

/-- While following, a valid fix on a session with a map emits exactly one camera
move: to the raw fix, with `finalMapBearing`, over 1000 ms. -/
theorem onPosition_following (T : Turf) (s : Session) (pos : Fix) (lng lat : JsNum) (now : Int)
    (hlng : pos.longitude = JsValue.number lng) (hlat : pos.latitude = JsValue.number lat)
    (nlng : lng.isNaN = false) (nlat : lat.isNaN = false) (hmap : s.mapCurrent = true)
    (hf : s.shouldFollow = true) :
    (onPosition T s pos now).2.filter Effect.isEaseTo
      = [Effect.easeTo (lng, lat) (estimateBearing T s (lng, lat) pos.speed pos.heading).2 1000] := by
  unfold onPosition
  simp only [hlng, hlat, nlng, nlat, hmap, Bool.or_self, Bool.false_eq_true, if_false,
    Bool.not_true, Bool.and_false]
  generalize hs2 : ({ s with
      currentPositionRef :=
        match s.currentPositionRef with
        | some current => some current
        | none => some { lng := lng, lat := lat }
      lastKnownPosition := some (lng, lat)
      targetPositionRef := some (snapTarget T s.routeGeoJSON (lng, lat))
      mapCurrent := true
      markerRef :=
        match s.markerRef with
        | some marker => some marker
        | none => some (lng, lat) } : Session) = s2
  have e1 : s2.recenterClicked = s.recenterClicked := by rw [← hs2]
  have e2 : s2.lastKnownStableBearing = s.lastKnownStableBearing := by rw [← hs2]
  have e3 : s2.routeGeoJSON = s.routeGeoJSON := by rw [← hs2]
  have e4 : s2.shouldFollow = true := by rw [← hs2]; exact hf
  have e5 : s2.mapCurrent = true := by rw [← hs2]
  obtain ⟨c1, _, _⟩ := estimateBearing_congr T s s2 (lng, lat) pos.speed pos.heading e1 e2 e3
  have hprog : ∀ s3 : Session,
      (updateProgress T s3 (lng, lat) now).2.filter Effect.isEaseTo = [] := by
    intro s3
    rw [List.filter_eq_nil_iff]
    intro e he
    rw [updateProgress_no_easeTo T s3 (lng, lat) now e he]
    simp
  simp only [estimateBearing_shouldFollow, estimateBearing_mapCurrent, e4, e5, Bool.and_self,
    if_true, List.filter_append, hprog, List.append_nil, c1]
  rfl

/-- C14: the camera starts following; a drag or a zoom switches following off;
from then on, along every sequence of events in which the timer of the recenter
button has not fired, following stays off and a position fix emits no camera
move; a recenter click on a session with a last known position, followed by its
timer, switches following back on; and while following, every valid fix emits
exactly one camera move, centred on the raw fix position. -/
theorem camera_follow_free_look (T : Turf) (stringify : List Destination → String) :
    (∀ origin destinations, (Session.initial origin destinations).shouldFollow = true) ∧
    (∀ s : Session,
      (step T stringify s Event.dragstart).1.shouldFollow = false ∧
      (step T stringify s Event.zoomstart).1.shouldFollow = false) ∧
    (∀ (s : Session) (es : List Event), s.shouldFollow = false →
      (∀ e ∈ es, e ≠ Event.recenterTimer) →
      (run T stringify s es).1.shouldFollow = false ∧
      ∀ pos now, ∀ e ∈ (step T stringify (run T stringify s es).1 (Event.position pos now)).2,
        e.isEaseTo = false) ∧
    (∀ (s : Session) (p : Coord), s.lastKnownPosition = some p → s.mapCurrent = true →
      (run T stringify s [Event.recenterClick, Event.recenterTimer]).1.shouldFollow = true) ∧
    (∀ (s : Session) (pos : Fix) (lng lat : JsNum) (now : Int),
      pos.longitude = JsValue.number lng → pos.latitude = JsValue.number lat →
      lng.isNaN = false → lat.isNaN = false → s.mapCurrent = true → s.shouldFollow = true →
      (step T stringify s (Event.position pos now)).2.filter Effect.isEaseTo
        = [Effect.easeTo (lng, lat)
            (estimateBearing T s (lng, lat) pos.speed pos.heading).2 1000]) := by
  refine ⟨fun _ _ => rfl, fun _ => ⟨rfl, rfl⟩, ?_, ?_, ?_⟩
  · intro s es hf hes
    have hfinal := run_freeLook T stringify es s hf hes
    exact ⟨hfinal, fun pos now => onPosition_freeLook T _ pos now hfinal⟩
  · intro s p hp hmap
    simp only [run, step, handleRecenterClick, hp, hmap, Bool.not_true, Bool.false_eq_true,
      if_false, recenterTimeout]
    simp
  · intro s pos lng lat now hlng hlat nlng nlat hmap hf
    exact onPosition_following T s pos lng lat now hlng hlat nlng nlat hmap hf

/-- Instance of `camera_follow_free_look`: in a fresh session a fix after a drag
emits no camera move, a recenter click after that fix and its timer switch
following back on, and a fix at (0, 0) in the fresh session emits one camera
move, centred on (0, 0). -/
theorem camera_follow_free_look_witness :
    (∀ e ∈ (step sampleTurf sampleStringify
        (run sampleTurf sampleStringify (Session.initial none []) [Event.dragstart]).1
        (Event.position (fixAt 0 0 JsValue.null JsValue.null) 10000)).2, e.isEaseTo = false) ∧
    (run sampleTurf sampleStringify
      { Session.initial none [] with
        shouldFollow := false, lastKnownPosition := some (pt 0 0) }
      [Event.recenterClick, Event.recenterTimer]).1.shouldFollow = true ∧
    (step sampleTurf sampleStringify (Session.initial none [])
      (Event.position (fixAt 0 0 JsValue.null JsValue.null) 10000)).2.filter Effect.isEaseTo
      = [Effect.easeTo (JsNum.fin 0, JsNum.fin 0)
          (estimateBearing sampleTurf (Session.initial none []) (JsNum.fin 0, JsNum.fin 0)
            JsValue.null JsValue.null).2 1000] := by
  have h := camera_follow_free_look sampleTurf sampleStringify
  refine ⟨?_, ?_, ?_⟩
  · exact (h.2.2.1 (step sampleTurf sampleStringify (Session.initial none []) Event.dragstart).1
      [] rfl (fun e he => absurd he (List.not_mem_nil _))).2 _ _
  · exact h.2.2.2.1 _ (pt 0 0) rfl rfl
  · exact h.2.2.2.2 (Session.initial none []) (fixAt 0 0 JsValue.null JsValue.null)
      (JsNum.fin 0) (JsNum.fin 0) 10000 rfl rfl rfl rfl rfl rfl

/-! ### The first fix -/

/-- A tick of `animateMarker` with no target leaves the session as it is. -/
theorem animateMarker_no_target (s : Session) (h : s.targetPositionRef = none) :
    animateMarker s = s := by
  unfold animateMarker
  rw [h]
  split
  · rename_i heq
    exact Option.noConfusion heq
  · rfl

/-- C15 (as amended): after the first valid fix of a session (current unset), at
finite coordinates, the current position is the raw fix and the target is the
result of the map matcher.  When the matcher does not snap (no active route, or
an active route 30 m or more away) the two are equal and the next animation tick
leaves the current position where it is; when it snaps, the target is the
snapped point while the current position is the raw fix.  While the target is
unset an animation tick changes nothing. -/
theorem first_target_initialisation (T : Turf) (s : Session) (pos : Fix) (x y : ℚ) (now : Int)
    (hlng : pos.longitude = JsValue.number (JsNum.fin x))
    (hlat : pos.latitude = JsValue.number (JsNum.fin y))
    (hcur : s.currentPositionRef = none) :
    (onPosition T s pos now).1.currentPositionRef
      = some { lng := JsNum.fin x, lat := JsNum.fin y } ∧
    (onPosition T s pos now).1.targetPositionRef
      = some (snapTarget T s.routeGeoJSON (JsNum.fin x, JsNum.fin y)) ∧
    (snapTarget T s.routeGeoJSON (JsNum.fin x, JsNum.fin y)
        = { lng := JsNum.fin x, lat := JsNum.fin y } →
      (onPosition T s pos now).1.targetPositionRef = (onPosition T s pos now).1.currentPositionRef ∧
      (animateMarker (onPosition T s pos now).1).currentPositionRef
        = (onPosition T s pos now).1.currentPositionRef) ∧
    (s.routeGeoJSON = none →
      snapTarget T s.routeGeoJSON (JsNum.fin x, JsNum.fin y)
        = { lng := JsNum.fin x, lat := JsNum.fin y }) ∧
    (∀ coords snapped d, s.routeGeoJSON = some coords → 2 ≤ coords.length →
      T.nearestPointOnLine coords (JsNum.fin x, JsNum.fin y) = some snapped →
      T.distance (JsNum.fin x, JsNum.fin y) snapped.coordinates = some (JsNum.fin d) →
      (30 ≤ d → snapTarget T s.routeGeoJSON (JsNum.fin x, JsNum.fin y)
          = { lng := JsNum.fin x, lat := JsNum.fin y }) ∧
      (d < 30 → snapTarget T s.routeGeoJSON (JsNum.fin x, JsNum.fin y)
          = { lng := snapped.coordinates.1, lat := snapped.coordinates.2 })) ∧
    (∀ s0 : Session, s0.targetPositionRef = none → animateMarker s0 = s0) := by
  obtain ⟨_, hc⟩ := onPosition_lastKnownPosition T s pos (JsNum.fin x) (JsNum.fin y) now
    hlng hlat rfl rfl
  have ht := onPosition_targetPositionRef T s pos (JsNum.fin x) (JsNum.fin y) now hlng hlat rfl rfl
  rw [hcur] at hc
  refine ⟨hc, ht, ?_, ?_, ?_, animateMarker_no_target⟩
  · intro hsnap
    rw [hsnap] at ht
    refine ⟨by rw [ht, hc], ?_⟩
    rw [(animateMarker_fin _ x y x y hc ht).1, hc]
    simp
  · intro hr
    simp [snapTarget, hr]
  · intro coords snapped d hr hlen hn hd
    have hlen2 : coords.length > 1 := hlen
    have h30 : (30 : JsNum) = JsNum.fin 30 := rfl
    have key : snapTarget T s.routeGeoJSON (JsNum.fin x, JsNum.fin y) =
        if d < 30 then { lng := snapped.coordinates.1, lat := snapped.coordinates.2 }
        else { lng := JsNum.fin x, lat := JsNum.fin y } := by
      simp only [snapTarget, hr, hlen2, if_true, hn, hd, h30, JsNum.lt, decide_eq_true_eq]
      norm_num
    rw [key]
    exact ⟨fun h => if_neg (not_lt.mpr h), fun h => if_pos h⟩

/-- Instance of `first_target_initialisation`: the first fix (3, 4) of a fresh
session without a route makes (3, 4) both the current position and the target,
and the next tick leaves the current position there. -/
theorem first_target_initialisation_witness :
    (Session.initial none []).currentPositionRef = none ∧
    (onPosition sampleTurf (Session.initial none [])
      (fixAt 3 4 JsValue.null JsValue.null) 10000).1.currentPositionRef
      = some { lng := JsNum.fin 3, lat := JsNum.fin 4 } ∧
    (onPosition sampleTurf (Session.initial none [])
      (fixAt 3 4 JsValue.null JsValue.null) 10000).1.targetPositionRef
      = some { lng := JsNum.fin 3, lat := JsNum.fin 4 } ∧
    (animateMarker (onPosition sampleTurf (Session.initial none [])
      (fixAt 3 4 JsValue.null JsValue.null) 10000).1).currentPositionRef
      = some { lng := JsNum.fin 3, lat := JsNum.fin 4 } := by
  obtain ⟨h1, h2, h3, h4, _⟩ := first_target_initialisation sampleTurf (Session.initial none [])
    (fixAt 3 4 JsValue.null JsValue.null) 3 4 10000 rfl rfl rfl
  have hsnap := h4 rfl
  refine ⟨rfl, h1, ?_, ?_⟩
  · rw [h2, hsnap]
  · rw [(h3 hsnap).2, h1]

/-- C15 fails as stated: the sample session has an active route and no current
position; its first fix, at (0, 10), is 10 away from the route, so the target is
the snapped point (0, 0) while the current position is the fix (0, 10); the first
tick then moves the current position to (0, 8). -/
theorem first_target_counterexample :
    sampleSession.currentPositionRef = none ∧
    (onPosition sampleTurf sampleSession
      (fixAt 0 10 JsValue.null JsValue.null) 10000).1.currentPositionRef
      = some { lng := JsNum.fin 0, lat := JsNum.fin 10 } ∧
    (onPosition sampleTurf sampleSession
      (fixAt 0 10 JsValue.null JsValue.null) 10000).1.targetPositionRef
      = some { lng := JsNum.fin 0, lat := JsNum.fin 0 } ∧
    (animateMarker (onPosition sampleTurf sampleSession
      (fixAt 0 10 JsValue.null JsValue.null) 10000).1).currentPositionRef
      = some { lng := JsNum.fin 0, lat := JsNum.fin 8 } := by
  obtain ⟨_, hc⟩ := onPosition_lastKnownPosition sampleTurf sampleSession
    (fixAt 0 10 JsValue.null JsValue.null) (JsNum.fin 0) (JsNum.fin 10) 10000 rfl rfl rfl rfl
  have ht := onPosition_targetPositionRef sampleTurf sampleSession
    (fixAt 0 10 JsValue.null JsValue.null) (JsNum.fin 0) (JsNum.fin 10) 10000 rfl rfl rfl rfl
  have hsnap : snapTarget sampleTurf sampleSession.routeGeoJSON (JsNum.fin 0, JsNum.fin 10)
      = { lng := JsNum.fin 0, lat := JsNum.fin 0 } := by
    have h30 : (30 : JsNum) = JsNum.fin 30 := rfl
    simp [snapTarget, sampleTurf, sampleDistance, sampleSession, Session.initial, pt, h30,
      JsNum.lt]
    norm_num
  rw [hsnap] at ht
  have hc2 : (onPosition sampleTurf sampleSession
      (fixAt 0 10 JsValue.null JsValue.null) 10000).1.currentPositionRef
      = some { lng := JsNum.fin 0, lat := JsNum.fin 10 } := hc
  refine ⟨rfl, hc2, ht, ?_⟩
  rw [(animateMarker_fin _ 0 10 0 0 hc2 ht).1]
  norm_num

end MapboxComponent
